import Mathlib

/-! LPASS status notification (wlan_hdd_lpass.c)

A shallow embedding of `core/hdd/src/wlan_hdd_lpass.c`.

* C pointers that may be `NULL` are `Option`s; a pointer to an adapter is a
  handle (a `Nat`) into the adapter store of the `World`.
* Fixed-size C arrays are `List`s; `uint8_t`/`uint32_t` values are `Nat`s,
  `int8_t` and `int` values are `Int`s.
* Everything the file uses but does not define (ABI constants, enum values,
  the SME / regulatory / CDS query functions, the allocator) is a field of
  `Env`, so every theorem holds for all values of those.
* The netlink transport is a log: `World.nlink` lists the messages handed to
  `wlan_hdd_send_svc_nlink_msg`, oldest first.
-/

namespace Lpass

/-! ## Records exchanged with the service (declared in a header outside this file) -/

/-- One entry of `wlan_status_data.channel_info`; the fields are the ones the
code assigns. -/
structure svc_channel_info where
  chan_id : Nat
  mhz : Nat
  band_center_freq1 : Nat
  band_center_freq2 : Nat
  info : Nat
  reg_info_1 : Nat
  reg_info_2 : Nat
deriving DecidableEq, Repr

/-- Payload of a `WLAN_SVC_WLAN_STATUS_IND` message. -/
structure wlan_status_data where
  lpss_support : Nat
  is_on : Nat
  vdev_id : Nat
  is_connected : Nat
  rssi : Int
  ssid_len : Nat
  country_code : List Nat
  vdev_mode : Nat
  freq : Nat
  numChannels : Nat
  channel_list : List Nat
  ssid : List Nat
  bssid : List Nat
  channel_info : List svc_channel_info
deriving DecidableEq, Repr

/-- Payload of a `WLAN_SVC_WLAN_VERSION_IND` message; the four strings are
`char` arrays of `WLAN_SVC_MAX_STR_LEN` bytes. -/
structure wlan_version_data where
  chip_id : Nat
  chip_name : List Char
  chip_from : List Char
  host_version : List Char
  fw_version : List Char
deriving DecidableEq, Repr

/-! ## Driver objects -/

/-- The part of `hdd_ctx->config` the file reads. -/
structure hdd_config where
  enable_lpass_support : Bool
deriving DecidableEq, Repr

/-- The part of `struct hdd_context` the file reads; `hdd_adapters` is the
adapter list walked by `hdd_for_each_adapter`, as handles in list order. -/
structure hdd_context where
  hHal : Nat
  hdd_pdev : Nat
  radio_index : Nat
  lpss_support : Bool
  config : hdd_config
  target_fw_version : Nat
  target_hw_version : Nat
  target_hw_name : List Char
  hdd_adapters : List Nat
deriving DecidableEq, Repr

/-- The part of `sta_ctx->conn_info` the file reads: `operationChannel`,
`SSID.SSID.length`, `SSID.SSID.ssId` and `bssId.bytes`. -/
structure hdd_station_ctx where
  operationChannel : Nat
  ssid_length : Nat
  ssId : List Nat
  bssId : List Nat
deriving DecidableEq, Repr

/-- The part of `struct hdd_adapter` the file reads or writes; `station` is
`session.station`, `rssi_send` the once-per-connection flag
(`false` = Idle, `true` = Sent). -/
structure hdd_adapter where
  hdd_ctx : hdd_context
  session_id : Nat
  device_mode : Nat
  rssi : Int
  rssi_send : Bool
  station : hdd_station_ctx
deriving DecidableEq, Repr

/-- A message handed to `wlan_hdd_send_svc_nlink_msg`: radio index, message
type and payload. -/
inductive svc_nlink_msg where
  | WLAN_SVC_WLAN_STATUS_IND (radio_index : Nat) (data : wlan_status_data)
  | WLAN_SVC_WLAN_VERSION_IND (radio_index : Nat) (data : wlan_version_data)
deriving DecidableEq, Repr

/-- Constants, enum values and external functions that `wlan_hdd_lpass.c`
uses and that are defined elsewhere. -/
structure Env where
  /-- capacity of `channel_list` / `channel_info` -/
  WLAN_SVC_MAX_NUM_CHAN : Nat
  /-- capacity of `ssid` -/
  WLAN_SVC_MAX_SSID_LEN : Nat
  /-- capacity of `bssid` -/
  WLAN_SVC_MAX_BSSID_LEN : Nat
  /-- capacity of each string of the version record -/
  WLAN_SVC_MAX_STR_LEN : Nat
  /-- capacity of `country_code` -/
  WLAN_SVC_COUNTRY_CODE_LEN : Nat
  QDF_MAC_ADDR_SIZE : Nat
  /-- `sizeof(sta_ctx->conn_info.bssId)` -/
  sizeof_bssId : Nat
  /-- the compiled-in host driver version string -/
  QWLAN_VERSIONSTR : List Char
  QDF_STA_MODE : Nat
  QDF_P2P_CLIENT_MODE : Nat
  QDF_P2P_DEVICE_MODE : Nat
  QDF_GLOBAL_FTM_MODE : Nat
  CHANNEL_STATE_DFS : Nat
  /-- bit number of the DFS flag in `svc_channel_info.info` -/
  WMI_CHAN_FLAG_DFS : Nat
  /-- `sme_get_reg_info(hHal, chan_id, &r1, &r2)`: `some (r1, r2)` on
  `QDF_STATUS_SUCCESS`, `none` otherwise -/
  sme_get_reg_info : Nat → Nat → Option (Nat × Nat)
  cds_chan_to_freq : Nat → Nat
  /-- `wlan_reg_get_channel_state(hdd_pdev, chan_id)` -/
  wlan_reg_get_channel_state : Nat → Nat → Nat
  /-- the flags word after the bandwidth information of channel `chan_id`
  has been encoded into it by `hdd_update_channel_bw_info` -/
  channel_bw_flags : hdd_context → Nat → Nat → Nat
  /-- `sme_get_cfg_valid_channels(list, &len)`: from the buffer and the
  capacity passed in, the buffer and the count after the call -/
  sme_get_cfg_valid_channels : List Nat → Nat → List Nat × Nat
  /-- `sme_get_country_code(hHal, buf, &buflen)`: the buffer after the call -/
  sme_get_country_code : Nat → List Nat → Nat → List Nat
  /-- `wlan_hdd_validate_session_id`: 0 when valid, a negative errno otherwise -/
  wlan_hdd_validate_session_id : Nat → Int
  /-- whether the n-th `kzalloc` of a status record succeeds -/
  kzalloc_ok : Nat → Bool

/-- Driver state around the notification entry points. -/
structure World where
  /-- `cds_get_context(QDF_MODULE_ID_HDD)` -/
  hdd_ctx : Option hdd_context
  /-- `hdd_get_conparam()` -/
  conparam : Nat
  /-- `cds_is_driver_unloading()` -/
  driver_unloading : Bool
  /-- adapter objects, by handle -/
  adapters : Nat → hdd_adapter
  /-- number of `kzalloc` calls made so far -/
  allocs : Nat
  /-- messages handed to `wlan_hdd_send_svc_nlink_msg`, oldest first -/
  nlink : List svc_nlink_msg

/-! ## C library helpers -/

/-- Linux `EINVAL`. -/
def EINVAL : Int := 22

/-- The terminating byte of a C string. -/
def NUL : Char := Char.ofNat 0

/-- The C string held in a `char` buffer: the characters before the first
NUL (or the whole list when it holds none). -/
def c_str (buf : List Char) : List Char :=
  buf.takeWhile (fun c => c != NUL)

/-- `strncmp(s1, s2, n)`: compares at most `n` characters, stopping after a
NUL; reading past the end of a list reads the terminator. -/
def strncmp : List Char → List Char → Nat → Int
  | _, _, 0 => 0
  | s1, s2, n + 1 =>
    let c1 := s1.headD NUL
    let c2 := s2.headD NUL
    if c1 ≠ c2 then (c1.toNat : Int) - (c2.toNat : Int)
    else if c1 = NUL then 0
    else strncmp s1.tail s2.tail n

/-- `strlcpy(dst, src, size)`: the buffer after copying at most `size - 1`
characters of the C string `src` and a terminator. -/
def strlcpy (dst src : List Char) (size : Nat) : List Char :=
  if size = 0 then dst
  else
    let n := min (c_str src).length (size - 1)
    (c_str src).take n ++ NUL :: dst.drop (n + 1)

/-- `memcpy(dst, src, n)` on byte arrays. -/
def memcpy (dst src : List Nat) (n : Nat) : List Nat :=
  src.take n ++ dst.drop n

/-- What `%d` prints for a 32-bit argument: decimal, two's-complement sign. -/
def fmt_d (x : Nat) : List Char :=
  if x % 2 ^ 32 < 2 ^ 31 then Nat.toDigits 10 (x % 2 ^ 32)
  else '-' :: Nat.toDigits 10 (2 ^ 32 - x % 2 ^ 32)

/-- Output of the format `"%d.%d.%d.%d"`. -/
def fmt_d_d_d_d (a b c d : Nat) : List Char :=
  fmt_d a ++ '.' :: (fmt_d b ++ '.' :: (fmt_d c ++ '.' :: fmt_d d))

/-- `scnprintf(buf, size, ...)` where `out` is the formatted text: the buffer
after writing at most `size - 1` characters of it and a terminator. -/
def scnprintf (buf : List Char) (size : Nat) (out : List Char) : List Char :=
  if size = 0 then buf
  else
    let n := min out.length (size - 1)
    out.take n ++ NUL :: buf.drop (n + 1)

/-- Modelled from the spec: the macro `WMI_SET_CHANNEL_FLAG` is not defined in
this file; "if DFS, sets the DFS bit in the flags field" - bit `flag` of
`info` is set, the other bits are kept. -/
def WMI_SET_CHANNEL_FLAG (chan_info : svc_channel_info) (flag : Nat) : svc_channel_info :=
  { chan_info with info := chan_info.info ||| (1 <<< flag) }

/-- Modelled from the spec: `hdd_update_channel_bw_info` is defined in another
file of the driver; it "queries bandwidth/channel-width info and encodes it
into the flags field", "a single apply-bandwidth-flags step" on the flags
word `info`; the other fields of the entry are kept. -/
def hdd_update_channel_bw_info (env : Env) (hdd_ctx : hdd_context) (chan_id : Nat)
    (chan_info : svc_channel_info) : svc_channel_info :=
  { chan_info with info := env.channel_bw_flags hdd_ctx chan_id chan_info.info }

/-- `WLAN_HDD_GET_CTX(adapter)`: the back pointer of the adapter. -/
def WLAN_HDD_GET_CTX (adapter : hdd_adapter) : hdd_context :=
  adapter.hdd_ctx

/-- `WLAN_HDD_GET_STATION_CTX_PTR(adapter)`: the address of a member of the
adapter, hence never `NULL`. -/
def WLAN_HDD_GET_STATION_CTX_PTR (adapter : hdd_adapter) : Option hdd_station_ctx :=
  some adapter.station

/-- An all-zero channel entry. -/
def svc_channel_info.zero : svc_channel_info :=
  { chan_id := 0, mhz := 0, band_center_freq1 := 0, band_center_freq2 := 0,
    info := 0, reg_info_1 := 0, reg_info_2 := 0 }

/-- The status record as `kzalloc` returns it: every byte zero. -/
def wlan_status_data.zero (env : Env) : wlan_status_data :=
  { lpss_support := 0, is_on := 0, vdev_id := 0, is_connected := 0, rssi := 0,
    ssid_len := 0,
    country_code := List.replicate env.WLAN_SVC_COUNTRY_CODE_LEN 0,
    vdev_mode := 0, freq := 0, numChannels := 0,
    channel_list := List.replicate env.WLAN_SVC_MAX_NUM_CHAN 0,
    ssid := List.replicate env.WLAN_SVC_MAX_SSID_LEN 0,
    bssid := List.replicate env.WLAN_SVC_MAX_BSSID_LEN 0,
    channel_info := List.replicate env.WLAN_SVC_MAX_NUM_CHAN svc_channel_info.zero }

/-- The version record after `memset(&data, 0, sizeof(data))`. -/
def wlan_version_data.zero (env : Env) : wlan_version_data :=
  { chip_id := 0,
    chip_name := List.replicate env.WLAN_SVC_MAX_STR_LEN NUL,
    chip_from := List.replicate env.WLAN_SVC_MAX_STR_LEN NUL,
    host_version := List.replicate env.WLAN_SVC_MAX_STR_LEN NUL,
    fw_version := List.replicate env.WLAN_SVC_MAX_STR_LEN NUL }

/-- `kzalloc(sizeof(*data), GFP_KERNEL)` for the allocation number `n`. -/
def kzalloc (env : Env) (n : Nat) : Option wlan_status_data :=
  if env.kzalloc_ok n then some (wlan_status_data.zero env) else none

/-! ## wlan_hdd_lpass.c -/

/-- `wlan_hdd_get_channel_info`: the entry `chan_info` after the call. -/
def wlan_hdd_get_channel_info (env : Env) (hdd_ctx : hdd_context)
    (chan_info : svc_channel_info) (chan_id : Nat) : svc_channel_info :=
  match env.sme_get_reg_info hdd_ctx.hHal chan_id with
  | none => chan_info
  | some (reg_info_1, reg_info_2) =>
    let chan_info := { chan_info with mhz := env.cds_chan_to_freq chan_id }
    let chan_info := { chan_info with band_center_freq1 := chan_info.mhz }
    let chan_info := { chan_info with band_center_freq2 := 0 }
    let chan_info := { chan_info with info := 0 }
    let chan_info :=
      if env.CHANNEL_STATE_DFS = env.wlan_reg_get_channel_state hdd_ctx.hdd_pdev chan_id then
        WMI_SET_CHANNEL_FLAG chan_info env.WMI_CHAN_FLAG_DFS
      else chan_info
    let chan_info := hdd_update_channel_bw_info env hdd_ctx chan_id chan_info
    let chan_info := { chan_info with reg_info_1 := reg_info_1 }
    { chan_info with reg_info_2 := reg_info_2 }

/-- One iteration of the channel loop of `wlan_hdd_gen_wlan_status_pack`. -/
def channel_loop_body (env : Env) (hdd_ctx : hdd_context)
    (data : wlan_status_data) (i : Nat) : wlan_status_data :=
  let chan_info := data.channel_info.getD i svc_channel_info.zero
  let chan_id := data.channel_list.getD i 0
  let chan_info := { chan_info with chan_id := chan_id }
  let chan_info := wlan_hdd_get_channel_info env hdd_ctx chan_info chan_id
  { data with channel_info := data.channel_info.set i chan_info }

/-- `wlan_hdd_gen_wlan_status_pack`: the return value and the record after
the call (`none` for a `NULL` record). -/
def wlan_hdd_gen_wlan_status_pack (env : Env) (data : Option wlan_status_data)
    (adapter : Option hdd_adapter) (sta_ctx : Option hdd_station_ctx)
    (is_on is_connected : Nat) : Int × Option wlan_status_data :=
  match data with
  | none => (-EINVAL, none)
  | some data =>
    match adapter with
    | none =>
      if is_on ≠ 0 then
        (0, some { data with lpss_support := 0, is_on := is_on })
      else (-EINVAL, some data)
    | some adapter =>
      if env.wlan_hdd_validate_session_id adapter.session_id ≠ 0 then
        (-EINVAL, some data)
      else
        let hdd_ctx := WLAN_HDD_GET_CTX adapter
        let data :=
          if hdd_ctx.lpss_support && hdd_ctx.config.enable_lpass_support then
            { data with lpss_support := 1 }
          else { data with lpss_support := 0 }
        let data := { data with numChannels := env.WLAN_SVC_MAX_NUM_CHAN }
        let valid := env.sme_get_cfg_valid_channels data.channel_list data.numChannels
        let data := { data with channel_list := valid.1, numChannels := valid.2 }
        let data := (List.range data.numChannels).foldl (channel_loop_body env hdd_ctx) data
        let data := { data with
          country_code :=
            env.sme_get_country_code hdd_ctx.hHal data.country_code env.WLAN_SVC_COUNTRY_CODE_LEN }
        let data := { data with is_on := is_on }
        let data := { data with vdev_id := adapter.session_id }
        let data := { data with vdev_mode := adapter.device_mode }
        match sta_ctx with
        | none => (0, some data)
        | some sta_ctx =>
          let data := { data with is_connected := is_connected }
          let data := { data with rssi := adapter.rssi }
          let data := { data with freq := env.cds_chan_to_freq sta_ctx.operationChannel }
          let data :=
            if env.WLAN_SVC_MAX_SSID_LEN ≥ sta_ctx.ssid_length then
              { data with ssid_len := sta_ctx.ssid_length,
                          ssid := memcpy data.ssid sta_ctx.ssId sta_ctx.ssid_length }
            else data
          let data :=
            if env.QDF_MAC_ADDR_SIZE ≥ env.sizeof_bssId then
              { data with bssid := memcpy data.bssid sta_ctx.bssId env.QDF_MAC_ADDR_SIZE }
            else data
          (0, some data)

/-- `wlan_hdd_gen_wlan_version_pack`: the return value and the record after
the call (`none` for a `NULL` record). -/
def wlan_hdd_gen_wlan_version_pack (env : Env) (data : Option wlan_version_data)
    (fw_version chip_id : Nat) (chip_name : List Char) : Int × Option wlan_version_data :=
  match data with
  | none => (-EINVAL, none)
  | some data =>
    let data := { data with chip_id := chip_id }
    let data := { data with chip_name := strlcpy data.chip_name chip_name env.WLAN_SVC_MAX_STR_LEN }
    let data :=
      if strncmp chip_name "Unknown".toList 7 ≠ 0 then
        { data with chip_from := strlcpy data.chip_from "Qualcomm".toList env.WLAN_SVC_MAX_STR_LEN }
      else
        { data with chip_from := strlcpy data.chip_from "Unknown".toList env.WLAN_SVC_MAX_STR_LEN }
    let data := { data with
      host_version := strlcpy data.host_version env.QWLAN_VERSIONSTR env.WLAN_SVC_MAX_STR_LEN }
    let data := { data with
      fw_version :=
        scnprintf data.fw_version env.WLAN_SVC_MAX_STR_LEN
          (fmt_d_d_d_d ((fw_version &&& 0xf0000000) >>> 28)
            ((fw_version &&& 0xf000000) >>> 24)
            ((fw_version &&& 0xf00000) >>> 20) (fw_version &&& 0x7fff)) }
    (0, some data)

/-- `wlan_hdd_send_status_pkg`; `adapter` is the handle of the adapter or
`none` for `NULL`. -/
def wlan_hdd_send_status_pkg (env : Env) (w : World) (adapter : Option Nat)
    (sta_ctx : Option hdd_station_ctx) (is_on is_connected : Nat) : World :=
  match w.hdd_ctx with
  | none => w
  | some hdd_ctx =>
    if env.QDF_GLOBAL_FTM_MODE = w.conparam then w
    else
      let data := kzalloc env w.allocs
      let w := { w with allocs := w.allocs + 1 }
      match data with
      | none => w
      | some data =>
        let r :=
          if is_on ≠ 0 then
            wlan_hdd_gen_wlan_status_pack env (some data) (adapter.map w.adapters)
              sta_ctx is_on is_connected
          else (0, some data)
        if r.1 = 0 then
          { w with
            nlink := w.nlink ++
              [svc_nlink_msg.WLAN_SVC_WLAN_STATUS_IND hdd_ctx.radio_index (r.2.getD data)] }
        else w

/-- `wlan_hdd_send_version_pkg`. -/
def wlan_hdd_send_version_pkg (env : Env) (w : World) (fw_version chip_id : Nat)
    (chip_name : List Char) : World :=
  match w.hdd_ctx with
  | none => w
  | some hdd_ctx =>
    if env.QDF_GLOBAL_FTM_MODE = w.conparam then w
    else
      let data := wlan_version_data.zero env
      let r := wlan_hdd_gen_wlan_version_pack env (some data) fw_version chip_id chip_name
      if r.1 = 0 then
        { w with
          nlink := w.nlink ++
            [svc_nlink_msg.WLAN_SVC_WLAN_VERSION_IND hdd_ctx.radio_index (r.2.getD data)] }
      else w

/-- Whether an adapter supports scanning, the test made in the loop of
`wlan_hdd_send_all_scan_intf_info`. -/
def is_scan_intf (env : Env) (adapter : hdd_adapter) : Bool :=
  adapter.device_mode == env.QDF_STA_MODE ||
  adapter.device_mode == env.QDF_P2P_CLIENT_MODE ||
  adapter.device_mode == env.QDF_P2P_DEVICE_MODE

/-- One iteration of the loop of `wlan_hdd_send_all_scan_intf_info`; the
state is the world and `scan_intf_found`. -/
def scan_intf_loop_body (env : Env) (s : World × Bool) (adapter : Nat) : World × Bool :=
  if is_scan_intf env (s.1.adapters adapter) then
    (wlan_hdd_send_status_pkg env s.1 (some adapter) none 1 0, true)
  else s

/-- Modelled from the spec: the macro `hdd_for_each_adapter` is not defined in
this file; the loop visits "every active interface" of the context in list
order and ends with the cursor at `NULL` ("no interface bound"). The result is
the loop state after the last iteration and the final cursor. -/
def hdd_for_each_adapter {σ : Type} (hdd_ctx : hdd_context) (body : σ → Nat → σ)
    (init : σ) : σ × Option Nat :=
  (hdd_ctx.hdd_adapters.foldl body init, none)

/-- `wlan_hdd_send_all_scan_intf_info`. -/
def wlan_hdd_send_all_scan_intf_info (env : Env) (w : World)
    (hdd_ctx : Option hdd_context) : World :=
  match hdd_ctx with
  | none => w
  | some hdd_ctx =>
    let loop := hdd_for_each_adapter hdd_ctx (scan_intf_loop_body env) (w, false)
    let w := loop.1.1
    let scan_intf_found := loop.1.2
    let adapter := loop.2
    if !scan_intf_found then wlan_hdd_send_status_pkg env w adapter none 1 0
    else w

/-- `hdd_lpass_notify_connect`. -/
def hdd_lpass_notify_connect (env : Env) (w : World) (adapter : Nat) : World :=
  if (w.adapters adapter).rssi_send then w
  else if w.driver_unloading then w
  else
    let w := { w with
      adapters :=
        Function.update w.adapters adapter { (w.adapters adapter) with rssi_send := true } }
    let sta_ctx := WLAN_HDD_GET_STATION_CTX_PTR (w.adapters adapter)
    wlan_hdd_send_status_pkg env w (some adapter) sta_ctx 1 1

/-- `hdd_lpass_notify_disconnect`. -/
def hdd_lpass_notify_disconnect (env : Env) (w : World) (adapter : Nat) : World :=
  let w := { w with
    adapters :=
      Function.update w.adapters adapter { (w.adapters adapter) with rssi_send := false } }
  let sta_ctx := WLAN_HDD_GET_STATION_CTX_PTR (w.adapters adapter)
  wlan_hdd_send_status_pkg env w (some adapter) sta_ctx 1 0

/-- `hdd_lpass_notify_mode_change`. -/
def hdd_lpass_notify_mode_change (env : Env) (w : World) (adapter : Nat) : World :=
  let hdd_ctx := WLAN_HDD_GET_CTX (w.adapters adapter)
  wlan_hdd_send_all_scan_intf_info env w (some hdd_ctx)

/-- `hdd_lpass_notify_start`. -/
def hdd_lpass_notify_start (env : Env) (w : World) (hdd_ctx : hdd_context) : World :=
  let w := wlan_hdd_send_all_scan_intf_info env w (some hdd_ctx)
  wlan_hdd_send_version_pkg env w hdd_ctx.target_fw_version hdd_ctx.target_hw_version
    hdd_ctx.target_hw_name

/-- `hdd_lpass_notify_stop`; the context argument is not used by the code. -/
def hdd_lpass_notify_stop (env : Env) (w : World) (_hdd_ctx : hdd_context) : World :=
  wlan_hdd_send_status_pkg env w none none 0 0

/-- `hdd_lpass_is_supported`. -/
def hdd_lpass_is_supported (hdd_ctx : hdd_context) : Bool :=
  hdd_ctx.config.enable_lpass_support

/-! ## Sample objects

Concrete values used to evaluate the definitions: a platform with the
record sizes 128 / 32 / 6 / 16 / 3, three channels of which channel 13 has
no regulatory information and channel 52 is a DFS channel, session ids
below 5 valid, and three registered adapters (station, access point,
P2P device). -/

/-- A sample platform; `kzalloc_ok` is left as a parameter. -/
def sample_env_with (kzalloc_ok : Nat → Bool) : Env :=
  { WLAN_SVC_MAX_NUM_CHAN := 128, WLAN_SVC_MAX_SSID_LEN := 32, WLAN_SVC_MAX_BSSID_LEN := 6,
    WLAN_SVC_MAX_STR_LEN := 16, WLAN_SVC_COUNTRY_CODE_LEN := 3, QDF_MAC_ADDR_SIZE := 6,
    sizeof_bssId := 6, QWLAN_VERSIONSTR := "5.2.0.1".toList,
    QDF_STA_MODE := 0, QDF_P2P_CLIENT_MODE := 2, QDF_P2P_DEVICE_MODE := 7,
    QDF_GLOBAL_FTM_MODE := 5, CHANNEL_STATE_DFS := 2, WMI_CHAN_FLAG_DFS := 10,
    sme_get_reg_info := fun _ c => if c = 13 then none else some (c + 100, c + 200),
    cds_chan_to_freq := fun c => 2407 + 5 * c,
    wlan_reg_get_channel_state := fun _ c => if c = 52 then 2 else 3,
    channel_bw_flags := fun _ _ info => info ||| 1,
    sme_get_cfg_valid_channels := fun buf _ => ([1, 13, 52] ++ buf.drop 3, 3),
    sme_get_country_code := fun _ buf _ => [85, 83] ++ buf.drop 2,
    wlan_hdd_validate_session_id := fun s => if s < 5 then 0 else -22,
    kzalloc_ok := kzalloc_ok }

/-- The sample platform on which every allocation succeeds. -/
def sample_env : Env := sample_env_with (fun _ => true)

/-- The sample platform on which every allocation fails. -/
def sample_env_nomem : Env := sample_env_with (fun _ => false)

/-- A sample HDD context with adapters 0, 1 and 2 registered. -/
def sample_ctx : hdd_context :=
  { hHal := 1, hdd_pdev := 2, radio_index := 0, lpss_support := true,
    config := { enable_lpass_support := true },
    target_fw_version := 0x12345678, target_hw_version := 0x400,
    target_hw_name := "QCA6390".toList, hdd_adapters := [0, 1, 2] }

/-- A sample connection: channel 6, SSID "home". -/
def sample_station : hdd_station_ctx :=
  { operationChannel := 6, ssid_length := 4,
    ssId := [104, 111, 109, 101] ++ List.replicate 28 0,
    bssId := [2, 0, 0, 0, 0, 1] }

/-- A sample adapter with the given session id and mode, flag Idle. -/
def sample_adapter (session_id device_mode : Nat) : hdd_adapter :=
  { hdd_ctx := sample_ctx, session_id := session_id, device_mode := device_mode, rssi := -50,
    rssi_send := false, station := sample_station }

/-- Adapter store of the sample world: 0 is a station, 1 an access point,
2 a P2P device; every other handle is a station that is not up (session id
255). -/
def sample_adapters (h : Nat) : hdd_adapter :=
  if h = 0 then sample_adapter 0 0
  else if h = 1 then sample_adapter 1 1
  else if h = 2 then sample_adapter 2 7
  else sample_adapter 255 0

/-- A sample world: context registered, mission mode, not unloading. -/
def sample_world : World :=
  { hdd_ctx := some sample_ctx, conparam := 0, driver_unloading := false,
    adapters := sample_adapters, allocs := 0, nlink := [] }

/-- A sample context whose only registered adapter is the handle 9. -/
def sample_ctx_down : hdd_context :=
  { sample_ctx with hdd_adapters := [9] }

/-- A sample world in which every adapter is a station that is not up
(session id 255) and belongs to `sample_ctx_down`. -/
def sample_world_down : World :=
  { sample_world with
    adapters := fun _ => { sample_adapter 255 0 with hdd_ctx := sample_ctx_down } }

/-- The sample world in factory/test mode. -/
def sample_world_ftm : World :=
  { sample_world with conparam := 5 }

/-! ## Lifecycle events

The five notification entry points as events, and the world reached after a
finite sequence of them. -/

/-- A lifecycle event: a call of one of the five notification entry points
with its argument. -/
inductive lifecycle_event where
  | connect (adapter : Nat)
  | disconnect (adapter : Nat)
  | mode_change (adapter : Nat)
  | start (hdd_ctx : hdd_context)
  | stop (hdd_ctx : hdd_context)
deriving DecidableEq, Repr

/-- The world after one lifecycle event. -/
def lifecycle_step (env : Env) (w : World) : lifecycle_event → World
  | lifecycle_event.connect adapter => hdd_lpass_notify_connect env w adapter
  | lifecycle_event.disconnect adapter => hdd_lpass_notify_disconnect env w adapter
  | lifecycle_event.mode_change adapter => hdd_lpass_notify_mode_change env w adapter
  | lifecycle_event.start hdd_ctx => hdd_lpass_notify_start env w hdd_ctx
  | lifecycle_event.stop hdd_ctx => hdd_lpass_notify_stop env w hdd_ctx

/-- The world after a sequence of lifecycle events, first event first. -/
def lifecycle_run (env : Env) (w : World) (events : List lifecycle_event) : World :=
  events.foldl (lifecycle_step env) w

/-- The sample world while the driver is unloading. -/
def sample_world_unloading : World :=
  { sample_world with driver_unloading := true }

/-- The sample world with the HDD context not registered with CDS. -/
def sample_world_noctx : World :=
  { sample_world with hdd_ctx := none }

/-- A sample adapter whose hardware does not advertise the LPASS capability
while the feature is enabled in the configuration. -/
def sample_adapter_nolpss : hdd_adapter :=
  { sample_adapter 0 0 with hdd_ctx := { sample_ctx with lpss_support := false } }

/-! ## Auxiliary facts -/

theorem and_shl_shr (v k : Nat) : (v &&& (15 <<< k)) >>> k = v / 2 ^ k % 16 := by
  apply Nat.eq_of_testBit_eq
  intro j
  have h15 : (15 : Nat) = 2 ^ 4 - 1 := by norm_num
  have h16 : (16 : Nat) = 2 ^ 4 := by norm_num
  rw [Nat.testBit_shiftRight, Nat.testBit_and, Nat.testBit_shiftLeft, h16,
    Nat.testBit_mod_two_pow, ← Nat.shiftRight_eq_div_pow, Nat.testBit_shiftRight, h15,
    Nat.testBit_two_pow_sub_one]
  by_cases hj : j < 4 <;> simp [hj]

theorem digitChar_ne_NUL (n : Nat) : Nat.digitChar n ≠ NUL := by
  by_cases h : n < 16
  · interval_cases n <;> decide
  · obtain ⟨m, rfl⟩ : ∃ m, n = m + 16 := ⟨n - 16, by omega⟩
    have hm : Nat.digitChar (m + 16) = '*' := by
      unfold Nat.digitChar
      simp
    rw [hm]
    decide

theorem toDigitsCore_no_NUL (b : Nat) : ∀ (fuel n : Nat) (ds : List Char),
    (∀ c ∈ ds, c ≠ NUL) → ∀ c ∈ Nat.toDigitsCore b fuel n ds, c ≠ NUL := by
  intro fuel
  induction fuel with
  | zero => intro n ds h; simpa [Nat.toDigitsCore] using h
  | succ f ih =>
    intro n ds h
    have hd : ∀ c ∈ Nat.digitChar (n % b) :: ds, c ≠ NUL := by
      intro c hc
      rcases List.mem_cons.mp hc with rfl | hc
      · exact digitChar_ne_NUL _
      · exact h c hc
    simp only [Nat.toDigitsCore]
    split
    · exact hd
    · exact ih _ _ hd

theorem toDigits_no_NUL (n : Nat) : ∀ c ∈ Nat.toDigits 10 n, c ≠ NUL := by
  unfold Nat.toDigits
  exact toDigitsCore_no_NUL 10 _ _ _ (by simp)

theorem toDigits_length_le (n e : Nat) (he : 0 < e) (h : n < 10 ^ e) :
    (Nat.toDigits 10 n).length ≤ e := by
  unfold Nat.toDigits
  exact Nat.toDigitsCore_length 10 (by decide) _ _ _ h he

theorem c_str_append_NUL (s rest : List Char) (h : ∀ c ∈ s, c ≠ NUL) :
    c_str (s ++ NUL :: rest) = s := by
  unfold c_str
  induction s with
  | nil => simp [List.takeWhile]
  | cons a t ih =>
    have ha : a ≠ NUL := h a (List.mem_cons_self _ _)
    have ht : ∀ c ∈ t, c ≠ NUL := fun c hc => h c (List.mem_cons_of_mem _ hc)
    have hb : (a != NUL) = true := by simpa using ha
    rw [List.cons_append, List.takeWhile_cons, hb]
    simp [ih ht]

theorem c_str_of_no_NUL (s : List Char) (h : ∀ c ∈ s, c ≠ NUL) : c_str s = s := by
  unfold c_str
  induction s with
  | nil => rfl
  | cons a t ih =>
    have ha : a ≠ NUL := h a (List.mem_cons_self _ _)
    have ht : ∀ c ∈ t, c ≠ NUL := fun c hc => h c (List.mem_cons_of_mem _ hc)
    have hb : (a != NUL) = true := by simpa using ha
    rw [List.takeWhile_cons, hb]
    simp [ih ht]

theorem char_sub_ne_zero (a c : Char) (h : a ≠ c) : (a.toNat : Int) - (c.toNat : Int) ≠ 0 := by
  intro h0
  apply h
  apply Char.ext
  apply UInt32.ext
  have : a.toNat = c.toNat := by omega
  exact this

theorem strncmp_eq_zero_iff : ∀ (n : Nat) (s t : List Char),
    (∀ c ∈ t, c ≠ NUL) → t.length = n → (strncmp s t n = 0 ↔ s.take n = t) := by
  intro n
  induction n with
  | zero =>
    intro s t _ hlen
    have ht : t = [] := List.length_eq_zero.mp hlen
    simp [strncmp, ht]
  | succ n ih =>
    intro s t hnul hlen
    obtain ⟨c, t', rfl⟩ : ∃ c t', t = c :: t' := by
      cases t with
      | nil => simp at hlen
      | cons c t' => exact ⟨c, t', rfl⟩
    have hc : c ≠ NUL := hnul c (List.mem_cons_self _ _)
    have ht' : ∀ x ∈ t', x ≠ NUL := fun x hx => hnul x (List.mem_cons_of_mem _ hx)
    have hlen' : t'.length = n := by simpa using hlen
    cases s with
    | nil =>
      have h1 : strncmp [] (c :: t') (n + 1) = (NUL.toNat : Int) - (c.toNat : Int) := by
        simp [strncmp, Ne.symm hc]
      rw [h1]
      constructor
      · intro h; exact absurd h (char_sub_ne_zero _ _ (Ne.symm hc))
      · intro h; simp at h
    | cons a s' =>
      by_cases hac : a = c
      · subst hac
        have h1 : strncmp (a :: s') (a :: t') (n + 1) = strncmp s' t' n := by
          simp [strncmp, hc]
        rw [h1, ih s' t' ht' hlen']
        simp
      · have h1 : strncmp (a :: s') (c :: t') (n + 1) = (a.toNat : Int) - (c.toNat : Int) := by
          simp [strncmp, hac]
        rw [h1]
        constructor
        · intro h; exact absurd h (char_sub_ne_zero _ _ hac)
        · intro h
          simp at h
          exact absurd h.1 hac

theorem strlcpy_c_str (dst src : List Char) (size : Nat) (hsrc : ∀ c ∈ src, c ≠ NUL)
    (hsize : src.length < size) : c_str (strlcpy dst src size) = src := by
  unfold strlcpy
  have h0 : size ≠ 0 := by omega
  rw [if_neg h0, c_str_of_no_NUL src hsrc]
  have hmin : min src.length (size - 1) = src.length := by omega
  simp only [hmin, List.take_length]
  exact c_str_append_NUL _ _ hsrc

theorem scnprintf_c_str (buf out : List Char) (size : Nat) (hout : ∀ c ∈ out, c ≠ NUL)
    (hsize : out.length < size) : c_str (scnprintf buf size out) = out := by
  unfold scnprintf
  have h0 : size ≠ 0 := by omega
  rw [if_neg h0]
  have hmin : min out.length (size - 1) = out.length := by omega
  simp only [hmin, List.take_length]
  exact c_str_append_NUL _ _ hout

theorem fmt_d_small (x : Nat) (h : x < 2 ^ 31) : fmt_d x = Nat.toDigits 10 x := by
  unfold fmt_d
  have h1 : x % 2 ^ 32 = x := Nat.mod_eq_of_lt (by omega)
  rw [h1, if_pos h]

theorem dot_ne_NUL : '.' ≠ NUL := by decide

theorem fw_text_no_NUL (a b c d : Nat) :
    ∀ x ∈ Nat.toDigits 10 a ++ '.' :: (Nat.toDigits 10 b ++ '.' ::
      (Nat.toDigits 10 c ++ '.' :: Nat.toDigits 10 d)), x ≠ NUL := by
  intro x hx
  simp only [List.mem_append, List.mem_cons] at hx
  rcases hx with h | h | h | h | h | h | h
  · exact toDigits_no_NUL a x h
  · rw [h]; exact dot_ne_NUL
  · exact toDigits_no_NUL b x h
  · rw [h]; exact dot_ne_NUL
  · exact toDigits_no_NUL c x h
  · rw [h]; exact dot_ne_NUL
  · exact toDigits_no_NUL d x h

theorem fw_text_length (a b c d : Nat) (ha : a < 16) (hb : b < 16) (hc : c < 16)
    (hd : d < 2 ^ 15) :
    (Nat.toDigits 10 a ++ '.' :: (Nat.toDigits 10 b ++ '.' ::
      (Nat.toDigits 10 c ++ '.' :: Nat.toDigits 10 d))).length ≤ 14 := by
  have h1 := toDigits_length_le a 2 (by decide) (by omega)
  have h2 := toDigits_length_le b 2 (by decide) (by omega)
  have h3 := toDigits_length_le c 2 (by decide) (by omega)
  have h4 := toDigits_length_le d 5 (by decide) (by omega)
  simp only [List.length_append, List.length_cons]
  omega

theorem fw_text_eq (v : Nat) :
    fmt_d_d_d_d ((v &&& 0xf0000000) >>> 28) ((v &&& 0xf000000) >>> 24)
      ((v &&& 0xf00000) >>> 20) (v &&& 0x7fff) =
    Nat.toDigits 10 (v / 2 ^ 28 % 16) ++ '.' :: (Nat.toDigits 10 (v / 2 ^ 24 % 16) ++ '.' ::
      (Nat.toDigits 10 (v / 2 ^ 20 % 16) ++ '.' :: Nat.toDigits 10 (v % 2 ^ 15))) := by
  have e1 : (v &&& 0xf0000000) >>> 28 = v / 2 ^ 28 % 16 := and_shl_shr v 28
  have e2 : (v &&& 0xf000000) >>> 24 = v / 2 ^ 24 % 16 := and_shl_shr v 24
  have e3 : (v &&& 0xf00000) >>> 20 = v / 2 ^ 20 % 16 := and_shl_shr v 20
  have e4 : v &&& 0x7fff = v % 2 ^ 15 := Nat.and_pow_two_sub_one_eq_mod v 15
  rw [e1, e2, e3, e4]
  unfold fmt_d_d_d_d
  rw [fmt_d_small _ (by omega), fmt_d_small _ (by omega), fmt_d_small _ (by omega),
    fmt_d_small _ (by omega)]

/-! ## Facts about the status builder -/

theorem channel_loop_body_fields (env : Env) (hdd_ctx : hdd_context) (d : wlan_status_data)
    (i : Nat) :
    channel_loop_body env hdd_ctx d i =
      { d with channel_info := (channel_loop_body env hdd_ctx d i).channel_info } := by
  simp [channel_loop_body]

theorem channel_fold_fields (env : Env) (hdd_ctx : hdd_context) : ∀ (l : List Nat)
    (d : wlan_status_data),
    l.foldl (channel_loop_body env hdd_ctx) d =
      { d with channel_info := (l.foldl (channel_loop_body env hdd_ctx) d).channel_info } := by
  intro l
  induction l with
  | nil => intro d; rfl
  | cons i t ih =>
    intro d
    rw [List.foldl_cons, ih (channel_loop_body env hdd_ctx d i)]
    simp [channel_loop_body]

theorem channel_fold_lpss_support (env : Env) (hdd_ctx : hdd_context) (l : List Nat)
    (d : wlan_status_data) :
    (l.foldl (channel_loop_body env hdd_ctx) d).lpss_support = d.lpss_support := by
  rw [channel_fold_fields env hdd_ctx l d]

theorem channel_fold_is_on (env : Env) (hdd_ctx : hdd_context) (l : List Nat)
    (d : wlan_status_data) :
    (l.foldl (channel_loop_body env hdd_ctx) d).is_on = d.is_on := by
  rw [channel_fold_fields env hdd_ctx l d]

theorem channel_fold_vdev_id (env : Env) (hdd_ctx : hdd_context) (l : List Nat)
    (d : wlan_status_data) :
    (l.foldl (channel_loop_body env hdd_ctx) d).vdev_id = d.vdev_id := by
  rw [channel_fold_fields env hdd_ctx l d]

theorem channel_fold_is_connected (env : Env) (hdd_ctx : hdd_context) (l : List Nat)
    (d : wlan_status_data) :
    (l.foldl (channel_loop_body env hdd_ctx) d).is_connected = d.is_connected := by
  rw [channel_fold_fields env hdd_ctx l d]

theorem channel_fold_rssi (env : Env) (hdd_ctx : hdd_context) (l : List Nat)
    (d : wlan_status_data) :
    (l.foldl (channel_loop_body env hdd_ctx) d).rssi = d.rssi := by
  rw [channel_fold_fields env hdd_ctx l d]

theorem channel_fold_ssid_len (env : Env) (hdd_ctx : hdd_context) (l : List Nat)
    (d : wlan_status_data) :
    (l.foldl (channel_loop_body env hdd_ctx) d).ssid_len = d.ssid_len := by
  rw [channel_fold_fields env hdd_ctx l d]

theorem channel_fold_country_code (env : Env) (hdd_ctx : hdd_context) (l : List Nat)
    (d : wlan_status_data) :
    (l.foldl (channel_loop_body env hdd_ctx) d).country_code = d.country_code := by
  rw [channel_fold_fields env hdd_ctx l d]

theorem channel_fold_vdev_mode (env : Env) (hdd_ctx : hdd_context) (l : List Nat)
    (d : wlan_status_data) :
    (l.foldl (channel_loop_body env hdd_ctx) d).vdev_mode = d.vdev_mode := by
  rw [channel_fold_fields env hdd_ctx l d]

theorem channel_fold_freq (env : Env) (hdd_ctx : hdd_context) (l : List Nat)
    (d : wlan_status_data) :
    (l.foldl (channel_loop_body env hdd_ctx) d).freq = d.freq := by
  rw [channel_fold_fields env hdd_ctx l d]

theorem channel_fold_numChannels (env : Env) (hdd_ctx : hdd_context) (l : List Nat)
    (d : wlan_status_data) :
    (l.foldl (channel_loop_body env hdd_ctx) d).numChannels = d.numChannels := by
  rw [channel_fold_fields env hdd_ctx l d]

theorem channel_fold_channel_list (env : Env) (hdd_ctx : hdd_context) (l : List Nat)
    (d : wlan_status_data) :
    (l.foldl (channel_loop_body env hdd_ctx) d).channel_list = d.channel_list := by
  rw [channel_fold_fields env hdd_ctx l d]

theorem channel_fold_ssid (env : Env) (hdd_ctx : hdd_context) (l : List Nat)
    (d : wlan_status_data) :
    (l.foldl (channel_loop_body env hdd_ctx) d).ssid = d.ssid := by
  rw [channel_fold_fields env hdd_ctx l d]

theorem channel_fold_bssid (env : Env) (hdd_ctx : hdd_context) (l : List Nat)
    (d : wlan_status_data) :
    (l.foldl (channel_loop_body env hdd_ctx) d).bssid = d.bssid := by
  rw [channel_fold_fields env hdd_ctx l d]

theorem channel_fold_range (env : Env) (hdd_ctx : hdd_context) (d : wlan_status_data) :
    ∀ n : Nat, n ≤ d.channel_info.length →
      ((List.range n).foldl (channel_loop_body env hdd_ctx) d).channel_info.length =
        d.channel_info.length ∧
      (∀ i, i < n →
        ((List.range n).foldl (channel_loop_body env hdd_ctx) d).channel_info.getD i
            svc_channel_info.zero =
          wlan_hdd_get_channel_info env hdd_ctx
            { d.channel_info.getD i svc_channel_info.zero with
              chan_id := d.channel_list.getD i 0 } (d.channel_list.getD i 0)) ∧
      (∀ i, n ≤ i →
        ((List.range n).foldl (channel_loop_body env hdd_ctx) d).channel_info.getD i
            svc_channel_info.zero =
          d.channel_info.getD i svc_channel_info.zero) := by
  intro n
  induction n with
  | zero =>
    intro _
    refine ⟨rfl, ?_, ?_⟩
    · intro i hi; omega
    · intro i _; rfl
  | succ n ih =>
    intro hn
    obtain ⟨hlen, hlo, hhi⟩ := ih (by omega)
    have hfields := channel_fold_fields env hdd_ctx (List.range n) d
    generalize hD : (List.range n).foldl (channel_loop_body env hdd_ctx) d = D at hlen hlo hhi hfields
    have hlist : D.channel_list = d.channel_list := by rw [hfields]
    rw [List.range_succ, List.foldl_append, hD]
    simp only [List.foldl_cons, List.foldl_nil, channel_loop_body]
    refine ⟨?_, ?_, ?_⟩
    · simp [hlen]
    · intro i hi
      by_cases hin : i = n
      · subst hin
        have hlt : i < D.channel_info.length := by omega
        rw [List.getD_eq_getElem?_getD, List.getElem?_set_self hlt]
        simp only [Option.getD_some]
        rw [hlist, hhi i (le_refl i)]
      · have hlt : i < n := by omega
        rw [List.getD_eq_getElem?_getD, List.getElem?_set_ne (Ne.symm hin),
          ← List.getD_eq_getElem?_getD]
        exact hlo i hlt
    · intro i hi
      have hne : n ≠ i := by omega
      rw [List.getD_eq_getElem?_getD, List.getElem?_set_ne hne, ← List.getD_eq_getElem?_getD]
      exact hhi i (by omega)

theorem channel_fold_entries (env : Env) (hdd_ctx : hdd_context) (d : wlan_status_data)
    (ci : List svc_channel_info) (cl : List Nat) (n i : Nat) (hci : d.channel_info = ci)
    (hcl : d.channel_list = cl) (hn : n ≤ ci.length) (hi : i < n) :
    ((List.range n).foldl (channel_loop_body env hdd_ctx) d).channel_info.getD i
        svc_channel_info.zero =
      wlan_hdd_get_channel_info env hdd_ctx
        { ci.getD i svc_channel_info.zero with chan_id := cl.getD i 0 } (cl.getD i 0) := by
  subst hci hcl
  exact (channel_fold_range env hdd_ctx d n hn).2.1 i hi

theorem gen_status_invalid (env : Env) (d : wlan_status_data) (a : hdd_adapter)
    (sta : Option hdd_station_ctx) (is_on is_connected : Nat)
    (h : env.wlan_hdd_validate_session_id a.session_id ≠ 0) :
    wlan_hdd_gen_wlan_status_pack env (some d) (some a) sta is_on is_connected =
      (-EINVAL, some d) := by
  simp [wlan_hdd_gen_wlan_status_pack, h]

theorem gen_status_valid (env : Env) (d : wlan_status_data) (a : hdd_adapter)
    (sta : Option hdd_station_ctx) (is_on is_connected : Nat)
    (h : env.wlan_hdd_validate_session_id a.session_id = 0) :
    ∃ r, wlan_hdd_gen_wlan_status_pack env (some d) (some a) sta is_on is_connected =
        (0, some r) ∧
      r.is_on = is_on ∧ r.vdev_id = a.session_id ∧ r.vdev_mode = a.device_mode ∧
      r.lpss_support =
        (if a.hdd_ctx.lpss_support && a.hdd_ctx.config.enable_lpass_support then 1 else 0) ∧
      r.channel_list = (env.sme_get_cfg_valid_channels d.channel_list
        env.WLAN_SVC_MAX_NUM_CHAN).1 ∧
      r.numChannels = (env.sme_get_cfg_valid_channels d.channel_list
        env.WLAN_SVC_MAX_NUM_CHAN).2 ∧
      ((env.sme_get_cfg_valid_channels d.channel_list env.WLAN_SVC_MAX_NUM_CHAN).2 ≤
          d.channel_info.length →
        ∀ i, i < (env.sme_get_cfg_valid_channels d.channel_list env.WLAN_SVC_MAX_NUM_CHAN).2 →
          r.channel_info.getD i svc_channel_info.zero =
            wlan_hdd_get_channel_info env a.hdd_ctx
              { d.channel_info.getD i svc_channel_info.zero with
                chan_id := (env.sme_get_cfg_valid_channels d.channel_list
                  env.WLAN_SVC_MAX_NUM_CHAN).1.getD i 0 }
              ((env.sme_get_cfg_valid_channels d.channel_list
                  env.WLAN_SVC_MAX_NUM_CHAN).1.getD i 0)) ∧
      (sta = none → r.is_connected = d.is_connected ∧ r.rssi = d.rssi ∧ r.freq = d.freq ∧
        r.ssid_len = d.ssid_len ∧ r.ssid = d.ssid ∧ r.bssid = d.bssid) ∧
      (∀ s, sta = some s → r.is_connected = is_connected ∧ r.rssi = a.rssi ∧
        r.freq = env.cds_chan_to_freq s.operationChannel) := by
  cases sta with
  | none =>
    by_cases hl : (a.hdd_ctx.lpss_support && a.hdd_ctx.config.enable_lpass_support) = true
    all_goals
      simp only [wlan_hdd_gen_wlan_status_pack, h, WLAN_HDD_GET_CTX, hl]
      refine ⟨_, rfl, rfl, rfl, rfl, ?_, ?_, ?_, ?_, ?_, ?_⟩
      · simp [channel_fold_lpss_support]
      · simp [channel_fold_channel_list]
      · simp [channel_fold_numChannels]
      · intro hle i hi
        exact channel_fold_entries env a.hdd_ctx _ _ _ _ i rfl rfl hle hi
      · intro _
        simp [channel_fold_is_connected, channel_fold_rssi, channel_fold_freq,
          channel_fold_ssid_len, channel_fold_ssid, channel_fold_bssid]
      · intro s hs
        cases hs
  | some s =>
    by_cases hl : (a.hdd_ctx.lpss_support && a.hdd_ctx.config.enable_lpass_support) = true <;>
    by_cases hs : env.WLAN_SVC_MAX_SSID_LEN ≥ s.ssid_length <;>
    by_cases hb : env.QDF_MAC_ADDR_SIZE ≥ env.sizeof_bssId
    all_goals
      simp only [wlan_hdd_gen_wlan_status_pack, h, WLAN_HDD_GET_CTX, hl, hs, hb]
      refine ⟨_, rfl, ?_, ?_, ?_, ?_, ?_, ?_, ?_, ?_, ?_⟩
      · simp
      · simp
      · simp
      · simp [channel_fold_lpss_support]
      · simp [channel_fold_channel_list]
      · simp [channel_fold_numChannels]
      · intro hle i hi
        simp only [ne_eq, not_true_eq_false, if_false, if_true, ite_true, ite_false]
        exact channel_fold_entries env a.hdd_ctx _ _ _ _ i rfl rfl hle hi
      · intro hs
        cases hs
      · intro s0 hs0
        cases hs0
        simp

/-! ## Facts about the send path -/

theorem send_status_frame (env : Env) (w : World) (adapter : Option Nat)
    (sta : Option hdd_station_ctx) (is_on is_connected : Nat) :
    (wlan_hdd_send_status_pkg env w adapter sta is_on is_connected).adapters = w.adapters ∧
    (wlan_hdd_send_status_pkg env w adapter sta is_on is_connected).hdd_ctx = w.hdd_ctx ∧
    (wlan_hdd_send_status_pkg env w adapter sta is_on is_connected).conparam = w.conparam ∧
    (wlan_hdd_send_status_pkg env w adapter sta is_on is_connected).driver_unloading =
      w.driver_unloading ∧
    w.allocs ≤ (wlan_hdd_send_status_pkg env w adapter sta is_on is_connected).allocs := by
  unfold wlan_hdd_send_status_pkg
  cases h : w.hdd_ctx with
  | none => simp [h]
  | some ctx =>
    by_cases hf : env.QDF_GLOBAL_FTM_MODE = w.conparam
    · simp [hf, h]
    · cases hk : kzalloc env w.allocs with
      | none => simp [hf, h]
      | some data =>
        simp only [hf, if_false]
        split_ifs <;> simp [h]

theorem send_status_ftm (env : Env) (w : World) (adapter : Option Nat)
    (sta : Option hdd_station_ctx) (is_on is_connected : Nat)
    (hf : env.QDF_GLOBAL_FTM_MODE = w.conparam) :
    wlan_hdd_send_status_pkg env w adapter sta is_on is_connected = w := by
  unfold wlan_hdd_send_status_pkg
  cases h : w.hdd_ctx <;> simp [hf]

theorem send_status_ok (env : Env) (w : World) (ctx : hdd_context) (adapter : Option Nat)
    (sta : Option hdd_station_ctx) (is_on is_connected : Nat) (r : wlan_status_data)
    (hctx : w.hdd_ctx = some ctx) (hf : env.QDF_GLOBAL_FTM_MODE ≠ w.conparam)
    (hk : env.kzalloc_ok w.allocs = true)
    (hr : (if is_on ≠ 0 then
        wlan_hdd_gen_wlan_status_pack env (some (wlan_status_data.zero env))
          (adapter.map w.adapters) sta is_on is_connected
      else (0, some (wlan_status_data.zero env))) = (0, some r)) :
    wlan_hdd_send_status_pkg env w adapter sta is_on is_connected =
      { w with allocs := w.allocs + 1,
               nlink := w.nlink ++ [svc_nlink_msg.WLAN_SVC_WLAN_STATUS_IND ctx.radio_index r] } := by
  unfold wlan_hdd_send_status_pkg
  simp only [hctx, hf, if_false, kzalloc, hk, if_true]
  rw [hr]
  simp

theorem send_status_fail (env : Env) (w : World) (ctx : hdd_context) (adapter : Option Nat)
    (sta : Option hdd_station_ctx) (is_on is_connected : Nat) (e : Int)
    (x : Option wlan_status_data)
    (hctx : w.hdd_ctx = some ctx) (hf : env.QDF_GLOBAL_FTM_MODE ≠ w.conparam)
    (hk : env.kzalloc_ok w.allocs = true)
    (hr : (if is_on ≠ 0 then
        wlan_hdd_gen_wlan_status_pack env (some (wlan_status_data.zero env))
          (adapter.map w.adapters) sta is_on is_connected
      else (0, some (wlan_status_data.zero env))) = (e, x)) (he : e ≠ 0) :
    wlan_hdd_send_status_pkg env w adapter sta is_on is_connected =
      { w with allocs := w.allocs + 1 } := by
  unfold wlan_hdd_send_status_pkg
  simp only [hctx, hf, if_false, kzalloc, hk, if_true]
  rw [hr]
  simp [he]

theorem scan_fold_ftm (env : Env) : ∀ (l : List Nat) (w : World) (found : Bool),
    env.QDF_GLOBAL_FTM_MODE = w.conparam →
    (l.foldl (scan_intf_loop_body env) (w, found)).1 = w := by
  intro l
  induction l with
  | nil => intro w found _; rfl
  | cons a t ih =>
    intro w found hf
    rw [List.foldl_cons]
    unfold scan_intf_loop_body
    by_cases hq : is_scan_intf env (w.adapters a) = true
    · simp only [hq, if_true, send_status_ftm env w (some a) none 1 0 hf]
      exact ih w true hf
    · simp only [hq]
      exact ih w found hf

theorem send_all_ftm (env : Env) (w : World) (hdd_ctx : Option hdd_context)
    (hf : env.QDF_GLOBAL_FTM_MODE = w.conparam) :
    wlan_hdd_send_all_scan_intf_info env w hdd_ctx = w := by
  unfold wlan_hdd_send_all_scan_intf_info
  cases hdd_ctx with
  | none => rfl
  | some ctx =>
    have h1 := scan_fold_ftm env ctx.hdd_adapters w false hf
    simp only [hdd_for_each_adapter, h1]
    split_ifs
    · exact send_status_ftm env w none none 1 0 hf
    · rfl

theorem send_version_ftm (env : Env) (w : World) (fw_version chip_id : Nat)
    (chip_name : List Char) (hf : env.QDF_GLOBAL_FTM_MODE = w.conparam) :
    wlan_hdd_send_version_pkg env w fw_version chip_id chip_name = w := by
  unfold wlan_hdd_send_version_pkg
  cases h : w.hdd_ctx <;> simp [hf]

theorem notify_connect_idle (env : Env) (w : World) (adapter : Nat)
    (hidle : (w.adapters adapter).rssi_send = false) (hunl : w.driver_unloading = false) :
    hdd_lpass_notify_connect env w adapter =
      wlan_hdd_send_status_pkg env
        { w with
          adapters :=
            Function.update w.adapters adapter { (w.adapters adapter) with rssi_send := true } }
        (some adapter) (some (w.adapters adapter).station) 1 1 := by
  unfold hdd_lpass_notify_connect
  rw [if_neg (by simp [hidle]), if_neg (by simp [hunl])]
  simp [WLAN_HDD_GET_STATION_CTX_PTR]

theorem notify_connect_sent (env : Env) (w : World) (adapter : Nat)
    (hsent : (w.adapters adapter).rssi_send = true) :
    hdd_lpass_notify_connect env w adapter = w := by
  unfold hdd_lpass_notify_connect
  rw [if_pos hsent]

theorem notify_disconnect_eq (env : Env) (w : World) (adapter : Nat) :
    hdd_lpass_notify_disconnect env w adapter =
      wlan_hdd_send_status_pkg env
        { w with
          adapters :=
            Function.update w.adapters adapter { (w.adapters adapter) with rssi_send := false } }
        (some adapter) (some (w.adapters adapter).station) 1 0 := by
  unfold hdd_lpass_notify_disconnect
  simp [WLAN_HDD_GET_STATION_CTX_PTR]

theorem gen_status_unbound (env : Env) :
    wlan_hdd_gen_wlan_status_pack env (some (wlan_status_data.zero env)) none none 1 0 =
      (0, some { wlan_status_data.zero env with is_on := 1 }) := by
  simp [wlan_hdd_gen_wlan_status_pack, wlan_status_data.zero]

theorem scan_fold_ok (env : Env) (ctx : hdd_context) : ∀ (l : List Nat) (w : World)
    (found : Bool), w.hdd_ctx = some ctx → env.QDF_GLOBAL_FTM_MODE ≠ w.conparam →
    (∀ n, w.allocs ≤ n → env.kzalloc_ok n = true) →
    (∀ a ∈ l, is_scan_intf env (w.adapters a) = true →
      env.wlan_hdd_validate_session_id (w.adapters a).session_id = 0) →
    ∃ recs : List wlan_status_data,
      (l.foldl (scan_intf_loop_body env) (w, found)).1.nlink =
        w.nlink ++ recs.map (svc_nlink_msg.WLAN_SVC_WLAN_STATUS_IND ctx.radio_index) ∧
      List.Forall₂ (fun a r =>
          wlan_hdd_gen_wlan_status_pack env (some (wlan_status_data.zero env))
            (some (w.adapters a)) none 1 0 = (0, some r) ∧
          r.is_on = 1 ∧ r.is_connected = 0 ∧ r.vdev_id = (w.adapters a).session_id ∧
          r.vdev_mode = (w.adapters a).device_mode)
        (l.filter (fun a => is_scan_intf env (w.adapters a))) recs ∧
      (l.foldl (scan_intf_loop_body env) (w, found)).2 =
        (found || l.any (fun a => is_scan_intf env (w.adapters a))) ∧
      (l.foldl (scan_intf_loop_body env) (w, found)).1.hdd_ctx = w.hdd_ctx ∧
      (l.foldl (scan_intf_loop_body env) (w, found)).1.conparam = w.conparam ∧
      (l.foldl (scan_intf_loop_body env) (w, found)).1.adapters = w.adapters ∧
      w.allocs ≤ (l.foldl (scan_intf_loop_body env) (w, found)).1.allocs := by
  intro l
  induction l with
  | nil =>
    intro w found _ _ _ _
    exact ⟨[], by simp, by simp, by simp, rfl, rfl, rfl, le_refl _⟩
  | cons a t ih =>
    intro w found hctx hf hk hv
    rw [List.foldl_cons]
    by_cases hq : is_scan_intf env (w.adapters a) = true
    · obtain ⟨r, hr, hon, hid, hmode, -, -, -, -, hnone, -⟩ :=
        gen_status_valid env (wlan_status_data.zero env) (w.adapters a) none 1 0
          (hv a (List.mem_cons_self _ _) hq)
      have hconn : r.is_connected = 0 := (hnone rfl).1
      have hsend := send_status_ok env w ctx (some a) none 1 0 r hctx hf
        (hk _ (le_refl _)) (by simpa using hr)
      have hbody : scan_intf_loop_body env (w, found) a =
          ({ w with allocs := w.allocs + 1,
                    nlink := w.nlink ++
                      [svc_nlink_msg.WLAN_SVC_WLAN_STATUS_IND ctx.radio_index r] }, true) := by
        unfold scan_intf_loop_body
        simp only [hq, if_true, hsend]
      rw [hbody]
      obtain ⟨recs, h1, h2, h3, h4, h5, h6, h7⟩ :=
        ih { w with allocs := w.allocs + 1,
                    nlink := w.nlink ++
                      [svc_nlink_msg.WLAN_SVC_WLAN_STATUS_IND ctx.radio_index r] } true
          hctx hf (fun n hn => hk n (by simp at hn; omega))
          (fun b hb hqb => hv b (List.mem_cons_of_mem _ hb) hqb)
      refine ⟨r :: recs, ?_, ?_, ?_, h4, h5, h6, ?_⟩
      · rw [h1]
        simp
      · rw [List.filter_cons_of_pos (by simpa using hq)]
        exact List.Forall₂.cons ⟨hr, hon, hconn, hid, hmode⟩ h2
      · rw [h3]
        simp [hq]
      · have : w.allocs + 1 ≤ _ := h7
        omega
    · have hbody : scan_intf_loop_body env (w, found) a = (w, found) := by
        unfold scan_intf_loop_body
        simp only [hq]
        rfl
      rw [hbody]
      obtain ⟨recs, h1, h2, h3, h4, h5, h6, h7⟩ :=
        ih w found hctx hf hk (fun b hb hqb => hv b (List.mem_cons_of_mem _ hb) hqb)
      refine ⟨recs, h1, ?_, ?_, h4, h5, h6, h7⟩
      · rw [List.filter_cons_of_neg (by simpa using hq)]
        exact h2
      · rw [h3]
        simp [hq]

theorem get_channel_info_chan_id (env : Env) (hdd_ctx : hdd_context)
    (chan_info : svc_channel_info) (chan_id : Nat) :
    (wlan_hdd_get_channel_info env hdd_ctx chan_info chan_id).chan_id = chan_info.chan_id := by
  unfold wlan_hdd_get_channel_info
  cases env.sme_get_reg_info hdd_ctx.hHal chan_id with
  | none => rfl
  | some p =>
    obtain ⟨r1, r2⟩ := p
    simp only []
    split_ifs <;> rfl

theorem get_channel_info_fail (env : Env) (hdd_ctx : hdd_context)
    (chan_info : svc_channel_info) (chan_id : Nat)
    (h : env.sme_get_reg_info hdd_ctx.hHal chan_id = none) :
    wlan_hdd_get_channel_info env hdd_ctx chan_info chan_id = chan_info := by
  unfold wlan_hdd_get_channel_info
  rw [h]

theorem zero_channel_info_getD (env : Env) (i : Nat) :
    (wlan_status_data.zero env).channel_info.getD i svc_channel_info.zero =
      svc_channel_info.zero := by
  simp only [wlan_status_data.zero, List.getD_eq_getElem?_getD, List.getElem?_replicate]
  split_ifs <;> rfl

theorem gen_version_eq (env : Env) (data : wlan_version_data) (v chip_id : Nat)
    (chip_name : List Char) :
    wlan_hdd_gen_wlan_version_pack env (some data) v chip_id chip_name =
      (0, some
        { chip_id := chip_id,
          chip_name := strlcpy data.chip_name chip_name env.WLAN_SVC_MAX_STR_LEN,
          chip_from :=
            if strncmp chip_name "Unknown".toList 7 ≠ 0 then
              strlcpy data.chip_from "Qualcomm".toList env.WLAN_SVC_MAX_STR_LEN
            else strlcpy data.chip_from "Unknown".toList env.WLAN_SVC_MAX_STR_LEN,
          host_version := strlcpy data.host_version env.QWLAN_VERSIONSTR env.WLAN_SVC_MAX_STR_LEN,
          fw_version := scnprintf data.fw_version env.WLAN_SVC_MAX_STR_LEN
            (fmt_d_d_d_d ((v &&& 0xf0000000) >>> 28) ((v &&& 0xf000000) >>> 24)
              ((v &&& 0xf00000) >>> 20) (v &&& 0x7fff)) }) := by
  unfold wlan_hdd_gen_wlan_version_pack
  by_cases h : strncmp chip_name "Unknown".toList 7 = 0
  · simp only [h, ne_eq, not_true_eq_false, if_false]
  · simp only [h, ne_eq, not_false_eq_true, if_true]

/-! ## Frame facts of the entry points -/

theorem send_status_cases (env : Env) (w : World) (adapter : Option Nat)
    (sta : Option hdd_station_ctx) (is_on is_connected : Nat) :
    (wlan_hdd_send_status_pkg env w adapter sta is_on is_connected).nlink = w.nlink ∨
    ∃ ctx r, w.hdd_ctx = some ctx ∧ env.QDF_GLOBAL_FTM_MODE ≠ w.conparam ∧
      env.kzalloc_ok w.allocs = true ∧
      (wlan_hdd_send_status_pkg env w adapter sta is_on is_connected).nlink =
        w.nlink ++ [svc_nlink_msg.WLAN_SVC_WLAN_STATUS_IND ctx.radio_index r] ∧
      (if is_on ≠ 0 then
         wlan_hdd_gen_wlan_status_pack env (some (wlan_status_data.zero env))
           (adapter.map w.adapters) sta is_on is_connected
       else (0, some (wlan_status_data.zero env))) = (0, some r) := by
  cases hctx : w.hdd_ctx with
  | none =>
    left
    unfold wlan_hdd_send_status_pkg
    simp [hctx]
  | some ctx =>
    by_cases hf : env.QDF_GLOBAL_FTM_MODE = w.conparam
    · left
      rw [send_status_ftm env w adapter sta is_on is_connected hf]
    · by_cases hk : env.kzalloc_ok w.allocs = true
      · cases hr : (if is_on ≠ 0 then
            wlan_hdd_gen_wlan_status_pack env (some (wlan_status_data.zero env))
              (adapter.map w.adapters) sta is_on is_connected
          else (0, some (wlan_status_data.zero env))) with
        | mk e x =>
          by_cases he : e = 0
          · subst he
            cases x with
            | none =>
              exfalso
              by_cases hon : is_on ≠ 0
              · rw [if_pos hon] at hr
                have h2 := congrArg Prod.snd hr
                simp only at h2
                cases hadp : adapter.map w.adapters with
                | none =>
                  rw [hadp] at h2
                  by_cases h0 : is_on = 0 <;>
                    simp [wlan_hdd_gen_wlan_status_pack, h0] at h2
                | some a =>
                  rw [hadp] at h2
                  by_cases hv : env.wlan_hdd_validate_session_id a.session_id = 0
                  · obtain ⟨r, hr2, -⟩ := gen_status_valid env (wlan_status_data.zero env) a
                      sta is_on is_connected hv
                    rw [hr2] at h2
                    cases h2
                  · rw [gen_status_invalid env _ a sta is_on is_connected hv] at h2
                    cases h2
              · rw [if_neg hon] at hr
                cases hr
            | some r =>
              right
              exact ⟨ctx, r, rfl, hf, hk,
                by rw [send_status_ok env w ctx adapter sta is_on is_connected r hctx hf hk hr],
                rfl⟩
          · left
            rw [send_status_fail env w ctx adapter sta is_on is_connected e x hctx hf hk hr he]
      · left
        unfold wlan_hdd_send_status_pkg
        simp [hctx, hf, kzalloc, hk]

theorem gen_status_not_connected (env : Env) (adapter : Option hdd_adapter)
    (sta : Option hdd_station_ctx) (is_on is_connected : Nat) (e : Int) (r : wlan_status_data)
    (h0 : sta = none ∨ is_connected = 0)
    (hr : wlan_hdd_gen_wlan_status_pack env (some (wlan_status_data.zero env)) adapter sta
      is_on is_connected = (e, some r)) : r.is_connected = 0 := by
  cases adapter with
  | none =>
    by_cases hon : is_on = 0
    · simp [wlan_hdd_gen_wlan_status_pack, hon] at hr
      rw [← hr.2]
      rfl
    · simp [wlan_hdd_gen_wlan_status_pack, hon] at hr
      rw [← hr.2]
      rfl
  | some a =>
    by_cases hv : env.wlan_hdd_validate_session_id a.session_id = 0
    · obtain ⟨r2, hr2, -, -, -, -, -, -, -, hnone, hsome⟩ :=
        gen_status_valid env (wlan_status_data.zero env) a sta is_on is_connected hv
      rw [hr2] at hr
      have hrr : r2 = r := by
        have := congrArg Prod.snd hr
        simpa using this
      subst hrr
      cases sta with
      | none => exact (hnone rfl).1
      | some s =>
        rcases h0 with h0 | h0
        · cases h0
        · rw [(hsome s rfl).1, h0]
    · rw [gen_status_invalid env _ a sta is_on is_connected hv] at hr
      have hrr : wlan_status_data.zero env = r := by
        have := congrArg Prod.snd hr
        simpa using this
      rw [← hrr]
      rfl

theorem send_version_cases (env : Env) (w : World) (fw_version chip_id : Nat)
    (chip_name : List Char) :
    (wlan_hdd_send_version_pkg env w fw_version chip_id chip_name).adapters = w.adapters ∧
    (wlan_hdd_send_version_pkg env w fw_version chip_id chip_name).hdd_ctx = w.hdd_ctx ∧
    (wlan_hdd_send_version_pkg env w fw_version chip_id chip_name).conparam = w.conparam ∧
    (wlan_hdd_send_version_pkg env w fw_version chip_id chip_name).driver_unloading =
      w.driver_unloading ∧
    (wlan_hdd_send_version_pkg env w fw_version chip_id chip_name).allocs = w.allocs ∧
    ((w.hdd_ctx = none ∨ env.QDF_GLOBAL_FTM_MODE = w.conparam) →
      (wlan_hdd_send_version_pkg env w fw_version chip_id chip_name).nlink = w.nlink) ∧
    (∀ ctx, w.hdd_ctx = some ctx → env.QDF_GLOBAL_FTM_MODE ≠ w.conparam →
      ∃ d, wlan_hdd_gen_wlan_version_pack env (some (wlan_version_data.zero env)) fw_version
          chip_id chip_name = (0, some d) ∧
        (wlan_hdd_send_version_pkg env w fw_version chip_id chip_name).nlink =
          w.nlink ++ [svc_nlink_msg.WLAN_SVC_WLAN_VERSION_IND ctx.radio_index d]) := by
  have hgen := gen_version_eq env (wlan_version_data.zero env) fw_version chip_id chip_name
  cases hctx : w.hdd_ctx with
  | none =>
    have h : wlan_hdd_send_version_pkg env w fw_version chip_id chip_name = w := by
      unfold wlan_hdd_send_version_pkg
      simp [hctx]
    rw [h]
    refine ⟨rfl, hctx, rfl, rfl, rfl, fun _ => rfl, ?_⟩
    intro ctx hc
    cases hc
  | some ctx =>
    by_cases hf : env.QDF_GLOBAL_FTM_MODE = w.conparam
    · have h : wlan_hdd_send_version_pkg env w fw_version chip_id chip_name = w :=
        send_version_ftm env w fw_version chip_id chip_name hf
      rw [h]
      refine ⟨rfl, hctx, rfl, rfl, rfl, fun _ => rfl, ?_⟩
      intro ctx2 _ hf2
      exact absurd hf hf2
    · have h : wlan_hdd_send_version_pkg env w fw_version chip_id chip_name =
          { w with
            nlink := w.nlink ++ [svc_nlink_msg.WLAN_SVC_WLAN_VERSION_IND ctx.radio_index
              ((wlan_hdd_gen_wlan_version_pack env (some (wlan_version_data.zero env))
                fw_version chip_id chip_name).2.getD (wlan_version_data.zero env))] } := by
        unfold wlan_hdd_send_version_pkg
        simp only [hctx, hf, if_false]
        rw [hgen]
        simp
      rw [h]
      refine ⟨rfl, hctx, rfl, rfl, rfl, ?_, ?_⟩
      · intro hor
        rcases hor with h1 | h1
        · cases h1
        · exact absurd h1 hf
      · intro ctx2 hc _
        cases hc
        refine ⟨_, hgen, ?_⟩
        rw [hgen]
        rfl

theorem scan_fold_frame (env : Env) : ∀ (l : List Nat) (w : World) (found : Bool),
    (l.foldl (scan_intf_loop_body env) (w, found)).1.adapters = w.adapters ∧
    (l.foldl (scan_intf_loop_body env) (w, found)).1.hdd_ctx = w.hdd_ctx ∧
    (l.foldl (scan_intf_loop_body env) (w, found)).1.conparam = w.conparam ∧
    (l.foldl (scan_intf_loop_body env) (w, found)).1.driver_unloading = w.driver_unloading ∧
    w.allocs ≤ (l.foldl (scan_intf_loop_body env) (w, found)).1.allocs ∧
    ∃ msgs, (l.foldl (scan_intf_loop_body env) (w, found)).1.nlink = w.nlink ++ msgs ∧
      ∀ m ∈ msgs, ∃ idx r, m = svc_nlink_msg.WLAN_SVC_WLAN_STATUS_IND idx r ∧
        r.is_connected = 0 := by
  intro l
  induction l with
  | nil =>
    intro w found
    exact ⟨rfl, rfl, rfl, rfl, le_refl _, [], by simp, by simp⟩
  | cons a t ih =>
    intro w found
    rw [List.foldl_cons]
    by_cases hq : is_scan_intf env (w.adapters a) = true
    · have hbody : scan_intf_loop_body env (w, found) a =
          (wlan_hdd_send_status_pkg env w (some a) none 1 0, true) := by
        unfold scan_intf_loop_body
        simp only [hq, if_true]
      rw [hbody]
      obtain ⟨f1, f2, f3, f4, f5⟩ := send_status_frame env w (some a) none 1 0
      obtain ⟨g1, g2, g3, g4, g5, msgs, g6, g7⟩ :=
        ih (wlan_hdd_send_status_pkg env w (some a) none 1 0) true
      refine ⟨g1.trans f1, g2.trans f2, g3.trans f3, g4.trans f4, le_trans f5 g5, ?_⟩
      rcases send_status_cases env w (some a) none 1 0 with hs | ⟨ctx, r, -, -, -, hs, hr⟩
      · exact ⟨msgs, by rw [g6, hs], g7⟩
      · refine ⟨svc_nlink_msg.WLAN_SVC_WLAN_STATUS_IND ctx.radio_index r :: msgs,
          by rw [g6, hs]; simp, ?_⟩
        intro m hm
        rcases List.mem_cons.mp hm with rfl | hm
        · refine ⟨_, _, rfl, ?_⟩
          rw [if_pos (by decide)] at hr
          exact gen_status_not_connected env _ none 1 0 0 r (Or.inl rfl) hr
        · exact g7 m hm
    · have hbody : scan_intf_loop_body env (w, found) a = (w, found) := by
        unfold scan_intf_loop_body
        simp only [hq]
        rfl
      rw [hbody]
      exact ih w found

theorem send_all_frame (env : Env) (w : World) (hdd_ctx : Option hdd_context) :
    (wlan_hdd_send_all_scan_intf_info env w hdd_ctx).adapters = w.adapters ∧
    (wlan_hdd_send_all_scan_intf_info env w hdd_ctx).hdd_ctx = w.hdd_ctx ∧
    (wlan_hdd_send_all_scan_intf_info env w hdd_ctx).conparam = w.conparam ∧
    (wlan_hdd_send_all_scan_intf_info env w hdd_ctx).driver_unloading = w.driver_unloading ∧
    w.allocs ≤ (wlan_hdd_send_all_scan_intf_info env w hdd_ctx).allocs ∧
    ∃ msgs, (wlan_hdd_send_all_scan_intf_info env w hdd_ctx).nlink = w.nlink ++ msgs ∧
      ∀ m ∈ msgs, ∃ idx r, m = svc_nlink_msg.WLAN_SVC_WLAN_STATUS_IND idx r ∧
        r.is_connected = 0 := by
  cases hdd_ctx with
  | none => exact ⟨rfl, rfl, rfl, rfl, le_refl _, [], by simp [wlan_hdd_send_all_scan_intf_info],
      by simp⟩
  | some c =>
    obtain ⟨g1, g2, g3, g4, g5, msgs, g6, g7⟩ := scan_fold_frame env c.hdd_adapters w false
    unfold wlan_hdd_send_all_scan_intf_info
    simp only [hdd_for_each_adapter]
    generalize List.foldl (scan_intf_loop_body env) (w, false) c.hdd_adapters = s at *
    by_cases hfound : s.2 = true
    · simp only [hfound, Bool.not_true, Bool.false_eq_true, if_false]
      exact ⟨g1, g2, g3, g4, g5, msgs, g6, g7⟩
    · have hfalse : s.2 = false := by simpa using hfound
      simp only [hfalse, Bool.not_false, if_true]
      obtain ⟨f1, f2, f3, f4, f5⟩ := send_status_frame env s.1 none none 1 0
      refine ⟨f1.trans g1, f2.trans g2, f3.trans g3, f4.trans g4, le_trans g5 f5, ?_⟩
      rcases send_status_cases env s.1 none none 1 0 with hs | ⟨ctx, r, -, -, -, hs, hr⟩
      · exact ⟨msgs, by rw [hs, g6], g7⟩
      · refine ⟨msgs ++ [svc_nlink_msg.WLAN_SVC_WLAN_STATUS_IND ctx.radio_index r],
          by rw [hs, g6]; simp, ?_⟩
        intro m hm
        rcases List.mem_append.mp hm with hm | hm
        · exact g7 m hm
        · rw [List.mem_singleton] at hm
          subst hm
          refine ⟨_, _, rfl, ?_⟩
          rw [if_pos (by decide)] at hr
          exact gen_status_not_connected env _ none 1 0 0 r (Or.inl rfl) hr

theorem EINVAL_ne_zero : (-EINVAL : Int) ≠ 0 := by decide

theorem gen_status_ok_valid (env : Env) (d : wlan_status_data) (a : hdd_adapter)
    (sta : Option hdd_station_ctx) (is_on is_connected : Nat) (x : Option wlan_status_data)
    (hr : wlan_hdd_gen_wlan_status_pack env (some d) (some a) sta is_on is_connected = (0, x)) :
    env.wlan_hdd_validate_session_id a.session_id = 0 := by
  by_contra hv
  rw [gen_status_invalid env d a sta is_on is_connected hv] at hr
  have := congrArg Prod.fst hr
  exact EINVAL_ne_zero this

theorem notify_connect_ok (env : Env) (w : World) (ctx : hdd_context) (adapter : Nat)
    (hctx : w.hdd_ctx = some ctx) (hk : env.kzalloc_ok w.allocs = true)
    (hv : env.wlan_hdd_validate_session_id (w.adapters adapter).session_id = 0)
    (hidle : (w.adapters adapter).rssi_send = false) (hunl : w.driver_unloading = false)
    (hf : env.QDF_GLOBAL_FTM_MODE ≠ w.conparam) :
    ∃ r, (hdd_lpass_notify_connect env w adapter).nlink =
        w.nlink ++ [svc_nlink_msg.WLAN_SVC_WLAN_STATUS_IND ctx.radio_index r] ∧
      r.is_on = 1 ∧ r.is_connected = 1 ∧ r.vdev_id = (w.adapters adapter).session_id := by
  obtain ⟨r, hr, hon, hid, -, -, -, -, -, -, hsta⟩ :=
    gen_status_valid env (wlan_status_data.zero env)
      { (w.adapters adapter) with rssi_send := true } (some (w.adapters adapter).station) 1 1 hv
  refine ⟨r, ?_, hon, (hsta _ rfl).1, hid⟩
  rw [notify_connect_idle env w adapter hidle hunl]
  rw [send_status_ok env
    { w with
      adapters :=
        Function.update w.adapters adapter { (w.adapters adapter) with rssi_send := true } }
    ctx (some adapter) _ 1 1 r hctx hf hk (by simpa using hr)]

theorem notify_connect_noop (env : Env) (w : World) (adapter : Nat)
    (h : (w.adapters adapter).rssi_send = true ∨ w.driver_unloading = true) :
    hdd_lpass_notify_connect env w adapter = w := by
  unfold hdd_lpass_notify_connect
  rcases h with h | h
  · rw [if_pos h]
  · by_cases hs : (w.adapters adapter).rssi_send = true
    · rw [if_pos hs]
    · rw [if_neg hs, if_pos h]

theorem notify_connect_adapters (env : Env) (w : World) (adapter : Nat) :
    (hdd_lpass_notify_connect env w adapter).adapters =
      if (w.adapters adapter).rssi_send = false ∧ w.driver_unloading = false then
        Function.update w.adapters adapter { (w.adapters adapter) with rssi_send := true }
      else w.adapters := by
  by_cases h : (w.adapters adapter).rssi_send = false ∧ w.driver_unloading = false
  · rw [if_pos h, notify_connect_idle env w adapter h.1 h.2,
      (send_status_frame env _ _ _ _ _).1]
  · rw [if_neg h, notify_connect_noop env w adapter]
    by_cases hs : (w.adapters adapter).rssi_send = true
    · exact Or.inl hs
    · right
      have hs2 : (w.adapters adapter).rssi_send = false := by simpa using hs
      by_contra hu
      exact h ⟨hs2, by simpa using hu⟩

theorem notify_disconnect_adapters (env : Env) (w : World) (adapter : Nat) :
    (hdd_lpass_notify_disconnect env w adapter).adapters =
      Function.update w.adapters adapter { (w.adapters adapter) with rssi_send := false } := by
  rw [notify_disconnect_eq, (send_status_frame env _ _ _ _ _).1]

theorem lifecycle_step_adapters (env : Env) (w : World) (e : lifecycle_event) :
    (lifecycle_step env w e).adapters =
      match e with
      | lifecycle_event.connect a =>
        if (w.adapters a).rssi_send = false ∧ w.driver_unloading = false then
          Function.update w.adapters a { (w.adapters a) with rssi_send := true }
        else w.adapters
      | lifecycle_event.disconnect a =>
        Function.update w.adapters a { (w.adapters a) with rssi_send := false }
      | _ => w.adapters := by
  cases e with
  | connect a => exact notify_connect_adapters env w a
  | disconnect a => exact notify_disconnect_adapters env w a
  | mode_change a => exact (send_all_frame env w _).1
  | start c =>
    show (hdd_lpass_notify_start env w c).adapters = w.adapters
    unfold hdd_lpass_notify_start
    simp only []
    rw [(send_version_cases env _ _ _ _).1, (send_all_frame env w _).1]
  | stop c => exact (send_status_frame env w none none 0 0).1

theorem lifecycle_step_frame (env : Env) (w : World) (e : lifecycle_event) :
    (lifecycle_step env w e).hdd_ctx = w.hdd_ctx ∧
    (lifecycle_step env w e).conparam = w.conparam ∧
    (lifecycle_step env w e).driver_unloading = w.driver_unloading ∧
    w.allocs ≤ (lifecycle_step env w e).allocs := by
  cases e with
  | connect a =>
    show (hdd_lpass_notify_connect env w a).hdd_ctx = w.hdd_ctx ∧ _
    by_cases h : (w.adapters a).rssi_send = false ∧ w.driver_unloading = false
    · show (hdd_lpass_notify_connect env w a).hdd_ctx = w.hdd_ctx ∧
        (hdd_lpass_notify_connect env w a).conparam = w.conparam ∧
        (hdd_lpass_notify_connect env w a).driver_unloading = w.driver_unloading ∧
        w.allocs ≤ (hdd_lpass_notify_connect env w a).allocs
      rw [notify_connect_idle env w a h.1 h.2]
      obtain ⟨-, f2, f3, f4, f5⟩ := send_status_frame env
        { w with
          adapters := Function.update w.adapters a { (w.adapters a) with rssi_send := true } }
        (some a) (some (w.adapters a).station) 1 1
      exact ⟨f2, f3, f4, f5⟩
    · have hn : hdd_lpass_notify_connect env w a = w := by
        apply notify_connect_noop
        by_cases hs : (w.adapters a).rssi_send = true
        · exact Or.inl hs
        · right
          have hs2 : (w.adapters a).rssi_send = false := by simpa using hs
          by_contra hu
          exact h ⟨hs2, by simpa using hu⟩
      show (hdd_lpass_notify_connect env w a).hdd_ctx = w.hdd_ctx ∧
        (hdd_lpass_notify_connect env w a).conparam = w.conparam ∧
        (hdd_lpass_notify_connect env w a).driver_unloading = w.driver_unloading ∧
        w.allocs ≤ (hdd_lpass_notify_connect env w a).allocs
      rw [hn]
      exact ⟨rfl, rfl, rfl, le_refl _⟩
  | disconnect a =>
    show (hdd_lpass_notify_disconnect env w a).hdd_ctx = w.hdd_ctx ∧
      (hdd_lpass_notify_disconnect env w a).conparam = w.conparam ∧
      (hdd_lpass_notify_disconnect env w a).driver_unloading = w.driver_unloading ∧
      w.allocs ≤ (hdd_lpass_notify_disconnect env w a).allocs
    rw [notify_disconnect_eq]
    obtain ⟨-, f2, f3, f4, f5⟩ := send_status_frame env
      { w with
        adapters := Function.update w.adapters a { (w.adapters a) with rssi_send := false } }
      (some a) (some (w.adapters a).station) 1 0
    exact ⟨f2, f3, f4, f5⟩
  | mode_change a =>
    obtain ⟨-, g2, g3, g4, g5, -⟩ := send_all_frame env w (some (WLAN_HDD_GET_CTX (w.adapters a)))
    exact ⟨g2, g3, g4, g5⟩
  | start c =>
    show (hdd_lpass_notify_start env w c).hdd_ctx = w.hdd_ctx ∧
      (hdd_lpass_notify_start env w c).conparam = w.conparam ∧
      (hdd_lpass_notify_start env w c).driver_unloading = w.driver_unloading ∧
      w.allocs ≤ (hdd_lpass_notify_start env w c).allocs
    unfold hdd_lpass_notify_start
    simp only []
    obtain ⟨-, g2, g3, g4, g5, -⟩ := send_all_frame env w (some c)
    obtain ⟨-, v2, v3, v4, v5, -⟩ := send_version_cases env
      (wlan_hdd_send_all_scan_intf_info env w (some c)) c.target_fw_version
      c.target_hw_version c.target_hw_name
    exact ⟨v2.trans g2, v3.trans g3, v4.trans g4, by rw [v5]; exact g5⟩
  | stop c =>
    obtain ⟨-, f2, f3, f4, f5⟩ := send_status_frame env w none none 0 0
    exact ⟨f2, f3, f4, f5⟩

theorem lifecycle_step_record (env : Env) (w : World) (e : lifecycle_event) (b : Nat) :
    ∃ f, (lifecycle_step env w e).adapters b = { (w.adapters b) with rssi_send := f } := by
  rw [lifecycle_step_adapters]
  cases e with
  | connect a =>
    simp only []
    split_ifs
    · by_cases hab : b = a
      · subst hab
        exact ⟨true, by simp⟩
      · exact ⟨(w.adapters b).rssi_send, by simp [Function.update_noteq hab]⟩
    · exact ⟨(w.adapters b).rssi_send, rfl⟩
  | disconnect a =>
    simp only []
    by_cases hab : b = a
    · subst hab
      exact ⟨false, by simp⟩
    · exact ⟨(w.adapters b).rssi_send, by simp [Function.update_noteq hab]⟩
  | mode_change a => exact ⟨(w.adapters b).rssi_send, rfl⟩
  | start c => exact ⟨(w.adapters b).rssi_send, rfl⟩
  | stop c => exact ⟨(w.adapters b).rssi_send, rfl⟩

theorem lifecycle_step_other (env : Env) (w : World) (e : lifecycle_event) (b : Nat)
    (h1 : e ≠ lifecycle_event.connect b) (h2 : e ≠ lifecycle_event.disconnect b) :
    (lifecycle_step env w e).adapters b = w.adapters b := by
  rw [lifecycle_step_adapters]
  cases e with
  | connect a =>
    have hab : b ≠ a := fun h => h1 (by rw [h])
    simp only []
    split_ifs
    · exact Function.update_noteq hab _ _
    · rfl
  | disconnect a =>
    have hab : b ≠ a := fun h => h2 (by rw [h])
    exact Function.update_noteq hab _ _
  | mode_change a => rfl
  | start c => rfl
  | stop c => rfl

theorem lifecycle_step_flag_sent (env : Env) (w : World) (e : lifecycle_event) (a : Nat)
    (he : e ≠ lifecycle_event.disconnect a) (h : (w.adapters a).rssi_send = true) :
    ((lifecycle_step env w e).adapters a).rssi_send = true := by
  by_cases hc : e = lifecycle_event.connect a
  · subst hc
    show ((hdd_lpass_notify_connect env w a).adapters a).rssi_send = true
    rw [notify_connect_sent env w a h]
    exact h
  · rw [lifecycle_step_other env w e a hc he]
    exact h

theorem lifecycle_step_flag_idle (env : Env) (w : World) (e : lifecycle_event) (a : Nat)
    (he : e ≠ lifecycle_event.connect a) (h : (w.adapters a).rssi_send = false) :
    ((lifecycle_step env w e).adapters a).rssi_send = false := by
  by_cases hd : e = lifecycle_event.disconnect a
  · subst hd
    show ((hdd_lpass_notify_disconnect env w a).adapters a).rssi_send = false
    rw [notify_disconnect_adapters]
    simp
  · rw [lifecycle_step_other env w e a he hd]
    exact h

theorem lifecycle_run_cons (env : Env) (w : World) (e : lifecycle_event)
    (es : List lifecycle_event) :
    lifecycle_run env w (e :: es) = lifecycle_run env (lifecycle_step env w e) es := rfl

theorem lifecycle_run_frame (env : Env) : ∀ (es : List lifecycle_event) (w : World),
    (lifecycle_run env w es).hdd_ctx = w.hdd_ctx ∧
    (lifecycle_run env w es).conparam = w.conparam ∧
    (lifecycle_run env w es).driver_unloading = w.driver_unloading ∧
    w.allocs ≤ (lifecycle_run env w es).allocs ∧
    ∀ b, ∃ f, (lifecycle_run env w es).adapters b = { (w.adapters b) with rssi_send := f } := by
  intro es
  induction es with
  | nil =>
    intro w
    exact ⟨rfl, rfl, rfl, le_refl _, fun b => ⟨(w.adapters b).rssi_send, rfl⟩⟩
  | cons e t ih =>
    intro w
    rw [lifecycle_run_cons]
    obtain ⟨h1, h2, h3, h4, h5⟩ := ih (lifecycle_step env w e)
    obtain ⟨s1, s2, s3, s4⟩ := lifecycle_step_frame env w e
    refine ⟨h1.trans s1, h2.trans s2, h3.trans s3, le_trans s4 h4, ?_⟩
    intro b
    obtain ⟨f, hf⟩ := h5 b
    obtain ⟨g, hg⟩ := lifecycle_step_record env w e b
    exact ⟨f, by rw [hf, hg]⟩

theorem lifecycle_run_flag_sent (env : Env) (a : Nat) : ∀ (es : List lifecycle_event)
    (w : World), (∀ e ∈ es, e ≠ lifecycle_event.disconnect a) →
    (w.adapters a).rssi_send = true →
    ((lifecycle_run env w es).adapters a).rssi_send = true := by
  intro es
  induction es with
  | nil => intro w _ h; exact h
  | cons e t ih =>
    intro w hes h
    rw [lifecycle_run_cons]
    exact ih _ (fun x hx => hes x (List.mem_cons_of_mem _ hx))
      (lifecycle_step_flag_sent env w e a (hes e (List.mem_cons_self _ _)) h)

theorem lifecycle_run_flag_idle (env : Env) (a : Nat) : ∀ (es : List lifecycle_event)
    (w : World), (∀ e ∈ es, e ≠ lifecycle_event.connect a) →
    (w.adapters a).rssi_send = false →
    ((lifecycle_run env w es).adapters a).rssi_send = false := by
  intro es
  induction es with
  | nil => intro w _ h; exact h
  | cons e t ih =>
    intro w hes h
    rw [lifecycle_run_cons]
    exact ih _ (fun x hx => hes x (List.mem_cons_of_mem _ hx))
      (lifecycle_step_flag_idle env w e a (hes e (List.mem_cons_self _ _)) h)

theorem lifecycle_step_msgs (env : Env) (w : World) (e : lifecycle_event) :
    ∃ msgs, (lifecycle_step env w e).nlink = w.nlink ++ msgs ∧
      ∀ idx r, svc_nlink_msg.WLAN_SVC_WLAN_STATUS_IND idx r ∈ msgs → r.is_connected ≠ 0 →
        ∃ a, e = lifecycle_event.connect a ∧ (w.adapters a).rssi_send = false ∧
          ((lifecycle_step env w e).adapters a).rssi_send = true ∧
          r.is_connected = 1 ∧ r.vdev_id = (w.adapters a).session_id := by
  cases e with
  | connect a =>
    have hflag : (w.adapters a).rssi_send = false ∧ w.driver_unloading = false →
        ((lifecycle_step env w (lifecycle_event.connect a)).adapters a).rssi_send = true := by
      intro h
      rw [lifecycle_step_adapters]
      simp [h]
    show ∃ msgs, (hdd_lpass_notify_connect env w a).nlink = w.nlink ++ msgs ∧ _
    by_cases h : (w.adapters a).rssi_send = false ∧ w.driver_unloading = false
    · rw [notify_connect_idle env w a h.1 h.2]
      rcases send_status_cases env
        { w with
          adapters := Function.update w.adapters a { (w.adapters a) with rssi_send := true } }
        (some a) (some (w.adapters a).station) 1 1 with hs | ⟨ctx, r, -, -, -, hs, hr⟩
      · exact ⟨[], by rw [hs]; simp, by simp⟩
      · refine ⟨[svc_nlink_msg.WLAN_SVC_WLAN_STATUS_IND ctx.radio_index r], hs, ?_⟩
        intro idx r2 hm _
        rw [List.mem_singleton] at hm
        have hrr2 : r2 = r := by injection hm
        subst hrr2
        rw [if_pos (by decide)] at hr
        have hr2 : wlan_hdd_gen_wlan_status_pack env (some (wlan_status_data.zero env))
            (some { (w.adapters a) with rssi_send := true }) (some (w.adapters a).station) 1 1 =
            (0, some r2) := by simpa using hr
        have hv := gen_status_ok_valid env _ _ _ _ _ _ hr2
        obtain ⟨r3, hr3, -, hid, -, -, -, -, -, -, hsta⟩ :=
          gen_status_valid env (wlan_status_data.zero env)
            { (w.adapters a) with rssi_send := true } (some (w.adapters a).station) 1 1 hv
        rw [hr3] at hr2
        have hrr : r3 = r2 := by
          have := congrArg Prod.snd hr2
          simpa using this
        subst hrr
        exact ⟨a, rfl, h.1, hflag h, (hsta _ rfl).1, hid⟩
    · rw [notify_connect_noop env w a (by
        by_cases hs : (w.adapters a).rssi_send = true
        · exact Or.inl hs
        · right
          have hs2 : (w.adapters a).rssi_send = false := by simpa using hs
          by_contra hu
          exact h ⟨hs2, by simpa using hu⟩)]
      exact ⟨[], by simp, by simp⟩
  | disconnect a =>
    show ∃ msgs, (hdd_lpass_notify_disconnect env w a).nlink = w.nlink ++ msgs ∧ _
    rw [notify_disconnect_eq]
    rcases send_status_cases env
      { w with
        adapters := Function.update w.adapters a { (w.adapters a) with rssi_send := false } }
      (some a) (some (w.adapters a).station) 1 0 with hs | ⟨ctx, r, -, -, -, hs, hr⟩
    · exact ⟨[], by rw [hs]; simp, by simp⟩
    · refine ⟨[svc_nlink_msg.WLAN_SVC_WLAN_STATUS_IND ctx.radio_index r], hs, ?_⟩
      intro idx r2 hm hne
      rw [List.mem_singleton] at hm
      have hrr2 : r2 = r := by injection hm
      subst hrr2
      rw [if_pos (by decide)] at hr
      exact absurd (gen_status_not_connected env _ _ 1 0 0 r2 (Or.inr rfl) hr) hne
  | mode_change a =>
    obtain ⟨-, -, -, -, -, msgs, g6, g7⟩ :=
      send_all_frame env w (some (WLAN_HDD_GET_CTX (w.adapters a)))
    refine ⟨msgs, g6, ?_⟩
    intro idx r hm hne
    obtain ⟨idx2, r2, heq, h0⟩ := g7 _ hm
    cases heq
    exact absurd h0 hne
  | start c =>
    show ∃ msgs, (hdd_lpass_notify_start env w c).nlink = w.nlink ++ msgs ∧ _
    unfold hdd_lpass_notify_start
    simp only []
    obtain ⟨-, g2, g3, -, -, msgs, g6, g7⟩ := send_all_frame env w (some c)
    obtain ⟨-, -, -, -, -, vnone, vsome⟩ := send_version_cases env
      (wlan_hdd_send_all_scan_intf_info env w (some c)) c.target_fw_version
      c.target_hw_version c.target_hw_name
    have hold : ∀ idx r, svc_nlink_msg.WLAN_SVC_WLAN_STATUS_IND idx r ∈ msgs →
        r.is_connected ≠ 0 → ∃ a, lifecycle_event.start c = lifecycle_event.connect a ∧
          (w.adapters a).rssi_send = false ∧
          ((lifecycle_step env w (lifecycle_event.start c)).adapters a).rssi_send = true ∧
          r.is_connected = 1 ∧ r.vdev_id = (w.adapters a).session_id := by
      intro idx r hm hne
      obtain ⟨idx2, r2, heq, h0⟩ := g7 _ hm
      cases heq
      exact absurd h0 hne
    cases hctx : (wlan_hdd_send_all_scan_intf_info env w (some c)).hdd_ctx with
    | none =>
      exact ⟨msgs, by rw [vnone (Or.inl hctx), g6], hold⟩
    | some ctx =>
      by_cases hf : env.QDF_GLOBAL_FTM_MODE =
          (wlan_hdd_send_all_scan_intf_info env w (some c)).conparam
      · exact ⟨msgs, by rw [vnone (Or.inr hf), g6], hold⟩
      · obtain ⟨d, -, hv⟩ := vsome ctx hctx hf
        refine ⟨msgs ++ [svc_nlink_msg.WLAN_SVC_WLAN_VERSION_IND ctx.radio_index d],
          by rw [hv, g6]; simp, ?_⟩
        intro idx r hm hne
        rcases List.mem_append.mp hm with hm | hm
        · exact hold idx r hm hne
        · rw [List.mem_singleton] at hm
          cases hm
  | stop c =>
    show ∃ msgs, (hdd_lpass_notify_stop env w c).nlink = w.nlink ++ msgs ∧ _
    unfold hdd_lpass_notify_stop
    rcases send_status_cases env w none none 0 0 with hs | ⟨ctx, r, -, -, -, hs, hr⟩
    · exact ⟨[], by rw [hs]; simp, by simp⟩
    · refine ⟨[svc_nlink_msg.WLAN_SVC_WLAN_STATUS_IND ctx.radio_index r], hs, ?_⟩
      intro idx r2 hm hne
      rw [List.mem_singleton] at hm
      have hrr2 : r2 = r := by injection hm
      subst hrr2
      rw [if_neg (by decide)] at hr
      have hrr : wlan_status_data.zero env = r2 := by
        have := congrArg Prod.snd hr
        simpa using this
      rw [← hrr] at hne
      exact absurd rfl hne

theorem gen_status_ssid (env : Env) (d : wlan_status_data) (a : hdd_adapter)
    (s : hdd_station_ctx) (is_on is_connected : Nat)
    (h : env.wlan_hdd_validate_session_id a.session_id = 0) :
    ∃ r, wlan_hdd_gen_wlan_status_pack env (some d) (some a) (some s) is_on is_connected =
        (0, some r) ∧
      r.ssid_len = (if env.WLAN_SVC_MAX_SSID_LEN ≥ s.ssid_length then s.ssid_length
        else d.ssid_len) ∧
      r.ssid = (if env.WLAN_SVC_MAX_SSID_LEN ≥ s.ssid_length then
        memcpy d.ssid s.ssId s.ssid_length else d.ssid) ∧
      r.bssid = (if env.QDF_MAC_ADDR_SIZE ≥ env.sizeof_bssId then
        memcpy d.bssid s.bssId env.QDF_MAC_ADDR_SIZE else d.bssid) := by
  by_cases hl : (a.hdd_ctx.lpss_support && a.hdd_ctx.config.enable_lpass_support) = true <;>
  by_cases hs : env.WLAN_SVC_MAX_SSID_LEN ≥ s.ssid_length <;>
  by_cases hb : env.QDF_MAC_ADDR_SIZE ≥ env.sizeof_bssId
  all_goals
    simp only [wlan_hdd_gen_wlan_status_pack, h, WLAN_HDD_GET_CTX, hl, hs, hb]
    refine ⟨_, rfl, ?_, ?_, ?_⟩
    · simp [channel_fold_ssid_len]
    · simp [channel_fold_ssid]
    · simp [channel_fold_bssid]

theorem memcpy_getD_zero (n m i : Nat) (src : List Nat) (hi : i < m) :
    (memcpy (List.replicate n 0) src m).getD i 0 = src.getD i 0 := by
  unfold memcpy
  simp only [List.getD_eq_getElem?_getD]
  by_cases h1 : i < src.length
  · have h2 : i < (src.take m).length := by
      rw [List.length_take]
      omega
    rw [List.getElem?_append_left h2, List.getElem?_take_of_lt hi]
  · have h2 : (src.take m).length ≤ i := by
      rw [List.length_take]
      omega
    rw [List.getElem?_append_right h2, List.getElem?_eq_none (by omega : src.length ≤ i)]
    simp only [Option.getD_none]
    rw [List.drop_replicate, List.getElem?_replicate]
    split_ifs <;> rfl

theorem gen_status_fail_unchanged (env : Env) (data : Option wlan_status_data)
    (adapter : Option hdd_adapter) (sta : Option hdd_station_ctx) (is_on is_connected : Nat)
    (h : (wlan_hdd_gen_wlan_status_pack env data adapter sta is_on is_connected).1 ≠ 0) :
    (wlan_hdd_gen_wlan_status_pack env data adapter sta is_on is_connected).2 = data := by
  cases data with
  | none => rfl
  | some d =>
    cases adapter with
    | none =>
      by_cases hon : is_on = 0
      · simp [wlan_hdd_gen_wlan_status_pack, hon]
      · exfalso
        apply h
        simp [wlan_hdd_gen_wlan_status_pack, hon]
    | some a =>
      by_cases hv : env.wlan_hdd_validate_session_id a.session_id = 0
      · exfalso
        obtain ⟨r, hr, -⟩ := gen_status_valid env d a sta is_on is_connected hv
        rw [hr] at h
        exact h rfl
      · rw [gen_status_invalid env d a sta is_on is_connected hv]

theorem bits_field_eq (v1 v2 k : Nat)
    (h : ∀ j, j < 4 → v1.testBit (k + j) = v2.testBit (k + j)) :
    v1 / 2 ^ k % 16 = v2 / 2 ^ k % 16 := by
  apply Nat.eq_of_testBit_eq
  intro j
  have h16 : (16 : Nat) = 2 ^ 4 := by norm_num
  rw [h16, Nat.testBit_mod_two_pow, Nat.testBit_mod_two_pow, ← Nat.shiftRight_eq_div_pow,
    ← Nat.shiftRight_eq_div_pow, Nat.testBit_shiftRight, Nat.testBit_shiftRight]
  by_cases hj : j < 4
  · rw [h j hj]
  · simp [hj]

theorem bits_low_eq (v1 v2 k : Nat) (h : ∀ j, j < k → v1.testBit j = v2.testBit j) :
    v1 % 2 ^ k = v2 % 2 ^ k := by
  apply Nat.eq_of_testBit_eq
  intro j
  rw [Nat.testBit_mod_two_pow, Nat.testBit_mod_two_pow]
  by_cases hj : j < k
  · rw [h j hj]
  · simp [hj]

theorem scnprintf_zero_length (n : Nat) (out : List Char) (hout : ∀ c ∈ out, c ≠ NUL) :
    (c_str (scnprintf (List.replicate n NUL) n out)).length ≤ out.length := by
  unfold scnprintf
  by_cases h0 : n = 0
  · subst h0
    simp [c_str]
  · rw [if_neg h0]
    simp only []
    rw [c_str_append_NUL _ _ (fun c hc => hout c (List.mem_of_mem_take hc))]
    rw [List.length_take]
    omega

/-! ## The claims -/

/-- C1, as stated, fails: on the sample world (context registered, mission
mode, not unloading) the Idle adapter 9 has an invalid session id, the build
fails and two `hdd_lpass_notify_connect` calls hand nothing to the
transport; the same happens for the valid adapter 0 when the HDD context is
not registered with CDS, and when the allocation fails. -/
theorem C1_connect_twice_counterexample :
    (sample_world.adapters 9).rssi_send = false ∧ sample_world.driver_unloading = false ∧
    sample_env.QDF_GLOBAL_FTM_MODE ≠ sample_world.conparam ∧
    (hdd_lpass_notify_connect sample_env sample_world 9).nlink = [] ∧
    (hdd_lpass_notify_connect sample_env
      (hdd_lpass_notify_connect sample_env sample_world 9) 9).nlink = [] ∧
    (hdd_lpass_notify_connect sample_env
      (hdd_lpass_notify_connect sample_env { sample_world with hdd_ctx := none } 0) 0).nlink
        = [] ∧
    (hdd_lpass_notify_connect sample_env_nomem
      (hdd_lpass_notify_connect sample_env_nomem sample_world 0) 0).nlink = [] := by
  decide

/-- C1, amended: for an adapter whose flag is Idle and whose session id is
valid, with the driver not unloading, factory/test mode inactive, the HDD
context registered and the record allocation succeeding, two
`hdd_lpass_notify_connect` calls in a row hand exactly one Status record to
the transport: the first call appends one record with `is_on = 1`,
`is_connected = 1` and the adapter's vdev id and sets the flag, the second
call appends nothing. -/
theorem C1_connect_twice (env : Env) (w : World) (ctx : hdd_context) (adapter : Nat)
    (hctx : w.hdd_ctx = some ctx) (hk : env.kzalloc_ok w.allocs = true)
    (hv : env.wlan_hdd_validate_session_id (w.adapters adapter).session_id = 0)
    (hidle : (w.adapters adapter).rssi_send = false)
    (hunl : w.driver_unloading = false)
    (hf : env.QDF_GLOBAL_FTM_MODE ≠ w.conparam) :
    ∃ r, (hdd_lpass_notify_connect env w adapter).nlink =
        w.nlink ++ [svc_nlink_msg.WLAN_SVC_WLAN_STATUS_IND ctx.radio_index r] ∧
      r.is_on = 1 ∧ r.is_connected = 1 ∧ r.vdev_id = (w.adapters adapter).session_id ∧
      ((hdd_lpass_notify_connect env w adapter).adapters adapter).rssi_send = true ∧
      (hdd_lpass_notify_connect env (hdd_lpass_notify_connect env w adapter) adapter).nlink =
        (hdd_lpass_notify_connect env w adapter).nlink := by
  obtain ⟨r, hr, hon, hid, -, -, -, -, -, -, hsta⟩ :=
    gen_status_valid env (wlan_status_data.zero env)
      { (w.adapters adapter) with rssi_send := true } (some (w.adapters adapter).station) 1 1 hv
  have hconn := (hsta _ rfl).1
  have hstep : hdd_lpass_notify_connect env w adapter =
      { w with
        adapters :=
          Function.update w.adapters adapter { (w.adapters adapter) with rssi_send := true },
        allocs := w.allocs + 1,
        nlink := w.nlink ++ [svc_nlink_msg.WLAN_SVC_WLAN_STATUS_IND ctx.radio_index r] } := by
    rw [notify_connect_idle env w adapter hidle hunl]
    exact send_status_ok env
      { w with
        adapters :=
          Function.update w.adapters adapter { (w.adapters adapter) with rssi_send := true } }
      ctx (some adapter) _ 1 1 r hctx hf hk (by simpa using hr)
  have hsent : ((hdd_lpass_notify_connect env w adapter).adapters adapter).rssi_send = true := by
    rw [hstep]
    simp
  exact ⟨r, by rw [hstep], hon, hconn, hid, hsent,
    by rw [notify_connect_sent env _ adapter hsent]⟩

/-- C1, amended, on the sample world for the station adapter 0. -/
theorem C1_connect_twice_witness :
    ∃ r, (hdd_lpass_notify_connect sample_env sample_world 0).nlink =
        sample_world.nlink ++ [svc_nlink_msg.WLAN_SVC_WLAN_STATUS_IND sample_ctx.radio_index r] ∧
      r.is_on = 1 ∧ r.is_connected = 1 ∧ r.vdev_id = (sample_world.adapters 0).session_id ∧
      ((hdd_lpass_notify_connect sample_env sample_world 0).adapters 0).rssi_send = true ∧
      (hdd_lpass_notify_connect sample_env
        (hdd_lpass_notify_connect sample_env sample_world 0) 0).nlink =
        (hdd_lpass_notify_connect sample_env sample_world 0).nlink :=
  C1_connect_twice sample_env sample_world sample_ctx 0 rfl rfl (by decide) (by decide) rfl
    (by decide)

/-- C2, as stated, fails: on the sample world (factory/test mode inactive)
`hdd_lpass_notify_disconnect` on adapter 9, whose session id is invalid,
hands nothing to the transport; the same happens for the valid adapter 0
when the HDD context is not registered with CDS, and when the allocation
fails. -/
theorem C2_disconnect_counterexample :
    sample_env.QDF_GLOBAL_FTM_MODE ≠ sample_world.conparam ∧
    (hdd_lpass_notify_disconnect sample_env sample_world 9).nlink = [] ∧
    (hdd_lpass_notify_disconnect sample_env { sample_world with hdd_ctx := none } 0).nlink
      = [] ∧
    (hdd_lpass_notify_disconnect sample_env_nomem sample_world 0).nlink = [] := by
  decide

/-- C2, amended: for every adapter and every prior flag value
`hdd_lpass_notify_disconnect` leaves the flag Idle; and when factory/test
mode is inactive, the HDD context is registered, the record allocation
succeeds and the adapter's session id is valid, it appends exactly one Status
record to the transport, with `is_connected = 0`, `is_on = 1` and the
adapter's vdev id. -/
theorem C2_disconnect (env : Env) (w : World) (adapter : Nat) :
    ((hdd_lpass_notify_disconnect env w adapter).adapters adapter).rssi_send = false ∧
    ∀ ctx, w.hdd_ctx = some ctx → env.kzalloc_ok w.allocs = true →
      env.wlan_hdd_validate_session_id (w.adapters adapter).session_id = 0 →
      env.QDF_GLOBAL_FTM_MODE ≠ w.conparam →
      ∃ r, (hdd_lpass_notify_disconnect env w adapter).nlink =
          w.nlink ++ [svc_nlink_msg.WLAN_SVC_WLAN_STATUS_IND ctx.radio_index r] ∧
        r.is_connected = 0 ∧ r.is_on = 1 ∧ r.vdev_id = (w.adapters adapter).session_id := by
  constructor
  · rw [notify_disconnect_eq, (send_status_frame env _ _ _ _ _).1]
    simp
  · intro ctx hctx hk hv hf
    obtain ⟨r, hr, hon, hid, -, -, -, -, -, -, hsta⟩ :=
      gen_status_valid env (wlan_status_data.zero env)
        { (w.adapters adapter) with rssi_send := false } (some (w.adapters adapter).station)
        1 0 hv
    refine ⟨r, ?_, (hsta _ rfl).1, hon, hid⟩
    rw [notify_disconnect_eq]
    rw [send_status_ok env
      { w with
        adapters :=
          Function.update w.adapters adapter { (w.adapters adapter) with rssi_send := false } }
      ctx (some adapter) _ 1 0 r hctx hf hk (by simpa using hr)]

/-- C2, amended, on the sample world for the station adapter 0. -/
theorem C2_disconnect_witness :
    ∃ r, (hdd_lpass_notify_disconnect sample_env sample_world 0).nlink =
        sample_world.nlink ++ [svc_nlink_msg.WLAN_SVC_WLAN_STATUS_IND sample_ctx.radio_index r] ∧
      r.is_connected = 0 ∧ r.is_on = 1 ∧ r.vdev_id = (sample_world.adapters 0).session_id :=
  (C2_disconnect sample_env sample_world 0).2 sample_ctx rfl rfl (by decide) (by decide)

/-- C3, as stated, fails: in the sample world `sample_world_down` the context
lists one adapter, a station (k = 1) whose session id is invalid; with
factory/test mode inactive `hdd_lpass_notify_mode_change` hands nothing to the
transport, neither the one bound record nor an unbound one. On the sample
world, where two valid adapters qualify, it hands nothing to the transport
either when the HDD context is not registered with CDS, and when the
allocations fail. -/
theorem C3_mode_change_counterexample :
    sample_env.QDF_GLOBAL_FTM_MODE ≠ sample_world_down.conparam ∧
    (sample_world_down.adapters 9).hdd_ctx.hdd_adapters.countP
      (fun a => is_scan_intf sample_env (sample_world_down.adapters a)) = 1 ∧
    (hdd_lpass_notify_mode_change sample_env sample_world_down 9).nlink = [] ∧
    (sample_world.adapters 0).hdd_ctx.hdd_adapters.countP
      (fun a => is_scan_intf sample_env (sample_world.adapters a)) = 2 ∧
    (hdd_lpass_notify_mode_change sample_env { sample_world with hdd_ctx := none } 0).nlink
      = [] ∧
    (hdd_lpass_notify_mode_change sample_env_nomem sample_world 0).nlink = [] := by
  decide

/-- C3, amended: with factory/test mode inactive, the HDD context registered,
the record allocations succeeding and every scan-capable adapter of the list
having a valid session id, `hdd_lpass_notify_mode_change` appends to the
transport exactly one unbound Status record (the zeroed record with
`is_on = 1`, hence `is_connected = 0`) when no adapter of the list has mode
Station, P2P-Client or P2P-Device, and otherwise exactly one record per
scan-capable adapter, in list order, each the record built for that adapter
with `is_on = 1`, `is_connected = 0` and the adapter's vdev id and mode; their
number is the number of scan-capable adapters. -/
theorem C3_mode_change (env : Env) (w : World) (ctx : hdd_context) (adapter : Nat)
    (hctx : w.hdd_ctx = some ctx) (hf : env.QDF_GLOBAL_FTM_MODE ≠ w.conparam)
    (hk : ∀ n, w.allocs ≤ n → env.kzalloc_ok n = true)
    (hv : ∀ a ∈ (w.adapters adapter).hdd_ctx.hdd_adapters,
      is_scan_intf env (w.adapters a) = true →
      env.wlan_hdd_validate_session_id (w.adapters a).session_id = 0) :
    ∃ recs : List wlan_status_data,
      (hdd_lpass_notify_mode_change env w adapter).nlink =
        w.nlink ++ recs.map (svc_nlink_msg.WLAN_SVC_WLAN_STATUS_IND ctx.radio_index) ∧
      (((w.adapters adapter).hdd_ctx.hdd_adapters.filter
          (fun a => is_scan_intf env (w.adapters a))) = [] →
        recs = [{ wlan_status_data.zero env with is_on := 1 }]) ∧
      (((w.adapters adapter).hdd_ctx.hdd_adapters.filter
          (fun a => is_scan_intf env (w.adapters a))) ≠ [] →
        recs.length = (w.adapters adapter).hdd_ctx.hdd_adapters.countP
          (fun a => is_scan_intf env (w.adapters a)) ∧
        List.Forall₂ (fun a r =>
            wlan_hdd_gen_wlan_status_pack env (some (wlan_status_data.zero env))
              (some (w.adapters a)) none 1 0 = (0, some r) ∧
            r.is_on = 1 ∧ r.is_connected = 0 ∧ r.vdev_id = (w.adapters a).session_id ∧
            r.vdev_mode = (w.adapters a).device_mode)
          ((w.adapters adapter).hdd_ctx.hdd_adapters.filter
            (fun a => is_scan_intf env (w.adapters a))) recs) := by
  obtain ⟨recs, h1, h2, h3, h4, h5, -, h7⟩ :=
    scan_fold_ok env ctx (w.adapters adapter).hdd_ctx.hdd_adapters w false hctx hf hk hv
  unfold hdd_lpass_notify_mode_change wlan_hdd_send_all_scan_intf_info
  simp only [WLAN_HDD_GET_CTX, hdd_for_each_adapter]
  generalize hs : List.foldl (scan_intf_loop_body env) (w, false)
    (w.adapters adapter).hdd_ctx.hdd_adapters = s at h1 h3 h4 h5 h7
  by_cases hany : (w.adapters adapter).hdd_ctx.hdd_adapters.any
      (fun a => is_scan_intf env (w.adapters a)) = true
  · have hq : (w.adapters adapter).hdd_ctx.hdd_adapters.filter
        (fun a => is_scan_intf env (w.adapters a)) ≠ [] := by
      intro hnil
      rw [List.filter_eq_nil_iff] at hnil
      rw [List.any_eq_true] at hany
      obtain ⟨x, hx, hxq⟩ := hany
      exact hnil x hx hxq
    have hfound : s.2 = true := by rw [h3, hany]; rfl
    refine ⟨recs, ?_, fun hnil => absurd hnil hq, fun _ => ⟨?_, h2⟩⟩
    · simp only [hfound, Bool.not_true, Bool.false_eq_true, if_false]
      exact h1
    · rw [List.countP_eq_length_filter]
      exact (List.Forall₂.length_eq h2).symm
  · have hq : (w.adapters adapter).hdd_ctx.hdd_adapters.filter
        (fun a => is_scan_intf env (w.adapters a)) = [] := by
      rw [List.filter_eq_nil_iff]
      intro x hx hxq
      exact hany (List.any_eq_true.mpr ⟨x, hx, hxq⟩)
    have hfound : s.2 = false := by
      rw [h3]
      simpa using hany
    rw [hq] at h2
    have hrecs : recs = [] := by
      cases h2
      rfl
    subst hrecs
    refine ⟨[{ wlan_status_data.zero env with is_on := 1 }], ?_, fun _ => rfl,
      fun hne => absurd hq hne⟩
    simp only [hfound, Bool.not_false, if_true]
    rw [send_status_ok env s.1 ctx none none 1 0 { wlan_status_data.zero env with is_on := 1 }
      (h4.trans hctx) (by rw [h5]; exact hf) (hk _ h7)
      (by simpa using gen_status_unbound env)]
    simpa using h1

/-- C3, amended, on the sample world: adapters 0 (station) and 2 (P2P device)
qualify, adapter 1 (access point) does not. -/
theorem C3_mode_change_witness :
    ∃ recs : List wlan_status_data,
      (hdd_lpass_notify_mode_change sample_env sample_world 0).nlink =
        sample_world.nlink ++
          recs.map (svc_nlink_msg.WLAN_SVC_WLAN_STATUS_IND sample_ctx.radio_index) ∧
      (((sample_world.adapters 0).hdd_ctx.hdd_adapters.filter
          (fun a => is_scan_intf sample_env (sample_world.adapters a))) = [] →
        recs = [{ wlan_status_data.zero sample_env with is_on := 1 }]) ∧
      (((sample_world.adapters 0).hdd_ctx.hdd_adapters.filter
          (fun a => is_scan_intf sample_env (sample_world.adapters a))) ≠ [] →
        recs.length = (sample_world.adapters 0).hdd_ctx.hdd_adapters.countP
          (fun a => is_scan_intf sample_env (sample_world.adapters a)) ∧
        List.Forall₂ (fun a r =>
            wlan_hdd_gen_wlan_status_pack sample_env
              (some (wlan_status_data.zero sample_env))
              (some (sample_world.adapters a)) none 1 0 = (0, some r) ∧
            r.is_on = 1 ∧ r.is_connected = 0 ∧
            r.vdev_id = (sample_world.adapters a).session_id ∧
            r.vdev_mode = (sample_world.adapters a).device_mode)
          ((sample_world.adapters 0).hdd_ctx.hdd_adapters.filter
            (fun a => is_scan_intf sample_env (sample_world.adapters a))) recs) :=
  C3_mode_change sample_env sample_world sample_ctx 0 rfl (by decide) (fun _ _ => rfl)
    (by decide)

/-- C4: `wlan_hdd_gen_wlan_status_pack` with a record and no adapter: for a
non-zero `is_on` it returns 0, sets `lpss_support` to 0 and `is_on` to the
argument and leaves every other field as it was; for `is_on = 0` it returns
`-EINVAL` (-22) and leaves the record unchanged. Started from the zeroed
record, the successful result is the zeroed record with `is_on` set. -/
theorem C4_status_pack_no_adapter (env : Env) (data : wlan_status_data)
    (sta_ctx : Option hdd_station_ctx) (is_on is_connected : Nat) :
    (∃ d, wlan_hdd_gen_wlan_status_pack env (some data) none sta_ctx is_on is_connected =
        (if is_on ≠ 0 then (0 : Int) else -22, some d) ∧
      d.lpss_support = (if is_on ≠ 0 then 0 else data.lpss_support) ∧
      d.is_on = (if is_on ≠ 0 then is_on else data.is_on) ∧
      d.vdev_id = data.vdev_id ∧ d.is_connected = data.is_connected ∧ d.rssi = data.rssi ∧
      d.ssid_len = data.ssid_len ∧ d.country_code = data.country_code ∧
      d.vdev_mode = data.vdev_mode ∧ d.freq = data.freq ∧ d.numChannels = data.numChannels ∧
      d.channel_list = data.channel_list ∧ d.ssid = data.ssid ∧ d.bssid = data.bssid ∧
      d.channel_info = data.channel_info) ∧
    wlan_hdd_gen_wlan_status_pack env (some (wlan_status_data.zero env)) none sta_ctx
        (is_on + 1) is_connected =
      (0, some { wlan_status_data.zero env with is_on := is_on + 1 }) ∧
    wlan_hdd_gen_wlan_status_pack env (some data) none sta_ctx 0 is_connected =
      (-EINVAL, some data) := by
  refine ⟨?_, ?_, ?_⟩
  · by_cases h : is_on = 0
    · refine ⟨data, ?_⟩
      simp [wlan_hdd_gen_wlan_status_pack, h, EINVAL]
    · refine ⟨{ data with lpss_support := 0, is_on := is_on }, ?_⟩
      simp [wlan_hdd_gen_wlan_status_pack, h]
  · simp [wlan_hdd_gen_wlan_status_pack, wlan_status_data.zero]
  · simp [wlan_hdd_gen_wlan_status_pack]

/-- C5: for every `fw_version` v the `fw_version` string written by
`wlan_hdd_gen_wlan_version_pack` is the decimal text "a.b.c.d" with a = bits
28-31 of v, b = bits 24-27, c = bits 20-23 and d = the low 15 bits of v,
provided the string buffer holds the 14 characters and the terminator; for
v = 0x12345678 the string is "1.2.3.22136". -/
theorem C5_fw_version_string (env : Env) (data : wlan_version_data) (v chip_id : Nat)
    (chip_name : List Char) (hlen : 15 ≤ env.WLAN_SVC_MAX_STR_LEN) :
    ∃ d, wlan_hdd_gen_wlan_version_pack env (some data) v chip_id chip_name = (0, some d) ∧
      c_str d.fw_version =
        Nat.toDigits 10 (v / 2 ^ 28 % 16) ++ '.' :: (Nat.toDigits 10 (v / 2 ^ 24 % 16) ++ '.' ::
          (Nat.toDigits 10 (v / 2 ^ 20 % 16) ++ '.' :: Nat.toDigits 10 (v % 2 ^ 15))) ∧
      (v = 0x12345678 → c_str d.fw_version = "1.2.3.22136".toList) := by
  have key : c_str (scnprintf data.fw_version env.WLAN_SVC_MAX_STR_LEN
      (fmt_d_d_d_d ((v &&& 0xf0000000) >>> 28) ((v &&& 0xf000000) >>> 24)
        ((v &&& 0xf00000) >>> 20) (v &&& 0x7fff))) =
      Nat.toDigits 10 (v / 2 ^ 28 % 16) ++ '.' :: (Nat.toDigits 10 (v / 2 ^ 24 % 16) ++ '.' ::
        (Nat.toDigits 10 (v / 2 ^ 20 % 16) ++ '.' :: Nat.toDigits 10 (v % 2 ^ 15))) := by
    rw [fw_text_eq]
    apply scnprintf_c_str _ _ _ (fw_text_no_NUL _ _ _ _)
    have := fw_text_length (v / 2 ^ 28 % 16) (v / 2 ^ 24 % 16) (v / 2 ^ 20 % 16) (v % 2 ^ 15)
      (Nat.mod_lt _ (by decide)) (Nat.mod_lt _ (by decide)) (Nat.mod_lt _ (by decide))
      (Nat.mod_lt _ (by decide))
    omega
  refine ⟨_, gen_version_eq env data v chip_id chip_name, key, ?_⟩
  intro hv
  subst hv
  exact key.trans (by decide)

/-- C5, at v = 0x12345678 on the sample platform: the string is
"1.2.3.22136". -/
theorem C5_fw_version_string_witness :
    15 ≤ sample_env.WLAN_SVC_MAX_STR_LEN ∧
    ∃ d, wlan_hdd_gen_wlan_version_pack sample_env (some (wlan_version_data.zero sample_env))
        0x12345678 0x400 "QCA6390".toList = (0, some d) ∧
      c_str d.fw_version = "1.2.3.22136".toList := by
  refine ⟨by decide, ?_⟩
  obtain ⟨d, h1, -, h3⟩ := C5_fw_version_string sample_env (wlan_version_data.zero sample_env)
    0x12345678 0x400 "QCA6390".toList (by decide)
  exact ⟨d, h1, h3 rfl⟩

/-- C6: `wlan_hdd_gen_wlan_version_pack` sets `chip_from` to "Unknown" when
the first 7 characters of `chip_name` are exactly "Unknown" and to
"Qualcomm" for every other `chip_name`, provided the string buffer holds
the 8 characters and the terminator. -/
theorem C6_chip_from (env : Env) (data : wlan_version_data) (v chip_id : Nat)
    (chip_name : List Char) (hlen : 9 ≤ env.WLAN_SVC_MAX_STR_LEN) :
    ∃ d, wlan_hdd_gen_wlan_version_pack env (some data) v chip_id chip_name = (0, some d) ∧
      c_str d.chip_from =
        (if chip_name.take 7 = "Unknown".toList then "Unknown".toList else "Qualcomm".toList) ∧
      (c_str d.chip_from = "Unknown".toList ↔ chip_name.take 7 = "Unknown".toList) := by
  have hiff := strncmp_eq_zero_iff 7 chip_name "Unknown".toList (by decide) (by decide)
  have key : c_str (if strncmp chip_name "Unknown".toList 7 ≠ 0 then
        strlcpy data.chip_from "Qualcomm".toList env.WLAN_SVC_MAX_STR_LEN
      else strlcpy data.chip_from "Unknown".toList env.WLAN_SVC_MAX_STR_LEN) =
      (if chip_name.take 7 = "Unknown".toList then "Unknown".toList else "Qualcomm".toList) := by
    by_cases h : chip_name.take 7 = "Unknown".toList
    · rw [if_neg (not_not.mpr (hiff.mpr h)), if_pos h]
      exact strlcpy_c_str _ _ _ (by decide) (by
        have : "Unknown".toList.length = 7 := by decide
        omega)
    · rw [if_pos (fun h0 => h (hiff.mp h0)), if_neg h]
      exact strlcpy_c_str _ _ _ (by decide) (by
        have : "Qualcomm".toList.length = 8 := by decide
        omega)
  refine ⟨_, gen_version_eq env data v chip_id chip_name, key, ?_⟩
  rw [key]
  by_cases h : chip_name.take 7 = "Unknown".toList
  · simp [h]
  · rw [if_neg h]
    constructor
    · intro h0
      exact absurd h0 (by decide)
    · intro h0
      exact absurd h0 h

/-- C6, on the sample platform: "UnknownXYZ" is labelled "Unknown"; the
lower-case "unknown" and the shorter "Unknow" are labelled "Qualcomm". -/
theorem C6_chip_from_witness :
    9 ≤ sample_env.WLAN_SVC_MAX_STR_LEN ∧
    (∃ d, wlan_hdd_gen_wlan_version_pack sample_env (some (wlan_version_data.zero sample_env))
        0x12345678 0x400 "UnknownXYZ".toList = (0, some d) ∧
      c_str d.chip_from = "Unknown".toList) ∧
    (∃ d, wlan_hdd_gen_wlan_version_pack sample_env (some (wlan_version_data.zero sample_env))
        0x12345678 0x400 "unknown".toList = (0, some d) ∧
      c_str d.chip_from = "Qualcomm".toList) ∧
    (∃ d, wlan_hdd_gen_wlan_version_pack sample_env (some (wlan_version_data.zero sample_env))
        0x12345678 0x400 "Unknow".toList = (0, some d) ∧
      c_str d.chip_from = "Qualcomm".toList) := by
  refine ⟨by decide, ?_, ?_, ?_⟩
  · obtain ⟨d, h1, h2, -⟩ := C6_chip_from sample_env (wlan_version_data.zero sample_env)
      0x12345678 0x400 "UnknownXYZ".toList (by decide)
    exact ⟨d, h1, h2.trans (by decide)⟩
  · obtain ⟨d, h1, h2, -⟩ := C6_chip_from sample_env (wlan_version_data.zero sample_env)
      0x12345678 0x400 "unknown".toList (by decide)
    exact ⟨d, h1, h2.trans (by decide)⟩
  · obtain ⟨d, h1, h2, -⟩ := C6_chip_from sample_env (wlan_version_data.zero sample_env)
      0x12345678 0x400 "Unknow".toList (by decide)
    exact ⟨d, h1, h2.trans (by decide)⟩

/-- C7, as stated, fails: built on a zeroed record for the sample station
adapter with the connection context present and `is_connected = 0` (the call
made by `hdd_lpass_notify_disconnect`), the record has `is_connected = 0` and
yet rssi -50, frequency 2437, SSID length 4, the SSID bytes and the BSSID of
the connection; the record `hdd_lpass_notify_disconnect` hands to the
transport carries them. -/
theorem C7_disconnected_fields_counterexample :
    (∃ r, wlan_hdd_gen_wlan_status_pack sample_env (some (wlan_status_data.zero sample_env))
        (some (sample_adapter 0 0)) (some sample_station) 1 0 = (0, some r) ∧
      r.is_connected = 0 ∧ r.rssi = -50 ∧ r.freq = 2437 ∧ r.ssid_len = 4 ∧
      r.ssid.take 4 = [104, 111, 109, 101] ∧ r.bssid = [2, 0, 0, 0, 0, 1]) ∧
    (∃ r, (hdd_lpass_notify_disconnect sample_env sample_world 0).nlink =
        [svc_nlink_msg.WLAN_SVC_WLAN_STATUS_IND 0 r] ∧
      r.is_connected = 0 ∧ r.rssi = -50 ∧ r.freq = 2437 ∧ r.ssid_len = 4 ∧
      r.ssid.take 4 = [104, 111, 109, 101] ∧ r.bssid = [2, 0, 0, 0, 0, 1]) :=
  ⟨⟨(wlan_hdd_gen_wlan_status_pack sample_env (some (wlan_status_data.zero sample_env))
      (some (sample_adapter 0 0)) (some sample_station) 1 0).2.getD
        (wlan_status_data.zero sample_env),
    by decide, by decide, by decide, by decide, by decide, by decide, by decide⟩,
   ⟨(wlan_hdd_gen_wlan_status_pack sample_env (some (wlan_status_data.zero sample_env))
      (some (sample_adapter 0 0)) (some sample_station) 1 0).2.getD
        (wlan_status_data.zero sample_env),
    by decide, by decide, by decide, by decide, by decide, by decide, by decide⟩⟩

/-- C7, amended: a record built by `wlan_hdd_gen_wlan_status_pack` on a zeroed
record with no connection context (`sta_ctx` NULL) has `is_connected`, rssi,
frequency, SSID length, SSID and BSSID all zero, for every adapter, `is_on`
and `is_connected` argument. With a connection context and a valid adapter
the record takes `is_connected` from the argument and rssi and frequency from
the adapter and the connection, whatever the `is_connected` argument is. -/
theorem C7_disconnected_fields (env : Env) (adapter : Option hdd_adapter) (a : hdd_adapter)
    (s : hdd_station_ctx) (is_on is_connected : Nat)
    (hv : env.wlan_hdd_validate_session_id a.session_id = 0) :
    (∃ ret r, wlan_hdd_gen_wlan_status_pack env (some (wlan_status_data.zero env)) adapter
        none is_on is_connected = (ret, some r) ∧
      r.is_connected = 0 ∧ r.rssi = 0 ∧ r.freq = 0 ∧ r.ssid_len = 0 ∧
      r.ssid = List.replicate env.WLAN_SVC_MAX_SSID_LEN 0 ∧
      r.bssid = List.replicate env.WLAN_SVC_MAX_BSSID_LEN 0) ∧
    (∃ r, wlan_hdd_gen_wlan_status_pack env (some (wlan_status_data.zero env)) (some a)
        (some s) is_on is_connected = (0, some r) ∧
      r.is_connected = is_connected ∧ r.rssi = a.rssi ∧
      r.freq = env.cds_chan_to_freq s.operationChannel) := by
  constructor
  · cases adapter with
    | none =>
      by_cases hon : is_on = 0
      · exact ⟨-EINVAL, wlan_status_data.zero env,
          by simp [wlan_hdd_gen_wlan_status_pack, hon], rfl, rfl, rfl, rfl, rfl, rfl⟩
      · exact ⟨0, { wlan_status_data.zero env with lpss_support := 0, is_on := is_on },
          by simp [wlan_hdd_gen_wlan_status_pack, hon], rfl, rfl, rfl, rfl, rfl, rfl⟩
    | some b =>
      by_cases hb : env.wlan_hdd_validate_session_id b.session_id = 0
      · obtain ⟨r, hr, -, -, -, -, -, -, -, hnone, -⟩ :=
          gen_status_valid env (wlan_status_data.zero env) b none is_on is_connected hb
        obtain ⟨h1, h2, h3, h4, h5, h6⟩ := hnone rfl
        exact ⟨0, r, hr, h1, h2, h3, h4, h5, h6⟩
      · exact ⟨-EINVAL, wlan_status_data.zero env,
          gen_status_invalid env _ b none is_on is_connected hb, rfl, rfl, rfl, rfl, rfl, rfl⟩
  · obtain ⟨r, hr, -, -, -, -, -, -, -, -, hsome⟩ :=
      gen_status_valid env (wlan_status_data.zero env) a (some s) is_on is_connected hv
    exact ⟨r, hr, hsome s rfl⟩

/-- C7, amended, on the sample platform: the mode-change build for the
sample station adapter, and the disconnect build with its connection. -/
theorem C7_disconnected_fields_witness :
    (∃ ret r, wlan_hdd_gen_wlan_status_pack sample_env
        (some (wlan_status_data.zero sample_env)) (some (sample_adapter 0 0))
        none 1 0 = (ret, some r) ∧
      r.is_connected = 0 ∧ r.rssi = 0 ∧ r.freq = 0 ∧ r.ssid_len = 0 ∧
      r.ssid = List.replicate sample_env.WLAN_SVC_MAX_SSID_LEN 0 ∧
      r.bssid = List.replicate sample_env.WLAN_SVC_MAX_BSSID_LEN 0) ∧
    (∃ r, wlan_hdd_gen_wlan_status_pack sample_env (some (wlan_status_data.zero sample_env))
        (some (sample_adapter 0 0)) (some sample_station) 1 0 = (0, some r) ∧
      r.is_connected = 0 ∧ r.rssi = (sample_adapter 0 0).rssi ∧
      r.freq = sample_env.cds_chan_to_freq sample_station.operationChannel) :=
  C7_disconnected_fields sample_env (some (sample_adapter 0 0)) (sample_adapter 0 0)
    sample_station 1 0 (by decide)

/-- C8: when factory/test mode is active, `hdd_lpass_notify_connect`,
`hdd_lpass_notify_disconnect`, `hdd_lpass_notify_mode_change`,
`hdd_lpass_notify_start` and `hdd_lpass_notify_stop` hand no message to the
transport, for every world, adapter and context. -/
theorem C8_ftm_no_send (env : Env) (w : World) (adapter : Nat) (hdd_ctx : hdd_context)
    (hf : env.QDF_GLOBAL_FTM_MODE = w.conparam) :
    (hdd_lpass_notify_connect env w adapter).nlink = w.nlink ∧
    (hdd_lpass_notify_disconnect env w adapter).nlink = w.nlink ∧
    (hdd_lpass_notify_mode_change env w adapter).nlink = w.nlink ∧
    (hdd_lpass_notify_start env w hdd_ctx).nlink = w.nlink ∧
    (hdd_lpass_notify_stop env w hdd_ctx).nlink = w.nlink := by
  refine ⟨?_, ?_, ?_, ?_, ?_⟩
  · unfold hdd_lpass_notify_connect
    split_ifs
    · rfl
    · rfl
    · simp only []
      rw [send_status_ftm env
        { w with
          adapters :=
            Function.update w.adapters adapter { (w.adapters adapter) with rssi_send := true } }
        _ _ _ _ hf]
  · rw [notify_disconnect_eq, send_status_ftm env
      { w with
        adapters :=
          Function.update w.adapters adapter { (w.adapters adapter) with rssi_send := false } }
      _ _ _ _ hf]
  · unfold hdd_lpass_notify_mode_change
    rw [send_all_ftm env w _ hf]
  · unfold hdd_lpass_notify_start
    simp only []
    rw [send_all_ftm env w _ hf, send_version_ftm env w _ _ _ hf]
  · unfold hdd_lpass_notify_stop
    rw [send_status_ftm env w _ _ _ _ hf]

/-- C8, on the sample world put in factory/test mode. -/
theorem C8_ftm_no_send_witness :
    (hdd_lpass_notify_connect sample_env sample_world_ftm 0).nlink = sample_world_ftm.nlink ∧
    (hdd_lpass_notify_disconnect sample_env sample_world_ftm 0).nlink =
      sample_world_ftm.nlink ∧
    (hdd_lpass_notify_mode_change sample_env sample_world_ftm 0).nlink =
      sample_world_ftm.nlink ∧
    (hdd_lpass_notify_start sample_env sample_world_ftm sample_ctx).nlink =
      sample_world_ftm.nlink ∧
    (hdd_lpass_notify_stop sample_env sample_world_ftm sample_ctx).nlink =
      sample_world_ftm.nlink :=
  C8_ftm_no_send sample_env sample_world_ftm 0 sample_ctx (by decide)

/-- C9: for a valid adapter, when `sme_get_cfg_valid_channels` reports n
channels (n within the capacity of the record), the build on a zeroed record
succeeds with `numChannels = n` and, for every i < n, entry i of
`channel_info` is `wlan_hdd_get_channel_info` applied to the zero entry with
`chan_id` set to the i-th channel id: it depends on no other channel, its
`chan_id` is the i-th channel id, it is zero elsewhere when the regulatory
lookup of that channel fails, and it carries the regulatory words and the
frequency of that channel when the lookup succeeds. -/
theorem C9_channel_entries (env : Env) (a : hdd_adapter) (sta : Option hdd_station_ctx)
    (is_on is_connected : Nat)
    (hv : env.wlan_hdd_validate_session_id a.session_id = 0)
    (hn : (env.sme_get_cfg_valid_channels (List.replicate env.WLAN_SVC_MAX_NUM_CHAN 0)
      env.WLAN_SVC_MAX_NUM_CHAN).2 ≤ env.WLAN_SVC_MAX_NUM_CHAN) :
    ∃ r, wlan_hdd_gen_wlan_status_pack env (some (wlan_status_data.zero env)) (some a) sta
        is_on is_connected = (0, some r) ∧
      r.numChannels = (env.sme_get_cfg_valid_channels
        (List.replicate env.WLAN_SVC_MAX_NUM_CHAN 0) env.WLAN_SVC_MAX_NUM_CHAN).2 ∧
      r.channel_list = (env.sme_get_cfg_valid_channels
        (List.replicate env.WLAN_SVC_MAX_NUM_CHAN 0) env.WLAN_SVC_MAX_NUM_CHAN).1 ∧
      ∀ i, i < r.numChannels →
        r.channel_info.getD i svc_channel_info.zero =
          wlan_hdd_get_channel_info env a.hdd_ctx
            { svc_channel_info.zero with chan_id := r.channel_list.getD i 0 }
            (r.channel_list.getD i 0) ∧
        (r.channel_info.getD i svc_channel_info.zero).chan_id = r.channel_list.getD i 0 ∧
        (env.sme_get_reg_info a.hdd_ctx.hHal (r.channel_list.getD i 0) = none →
          r.channel_info.getD i svc_channel_info.zero =
            { svc_channel_info.zero with chan_id := r.channel_list.getD i 0 }) ∧
        (∀ w1 w2, env.sme_get_reg_info a.hdd_ctx.hHal (r.channel_list.getD i 0) = some (w1, w2) →
          (r.channel_info.getD i svc_channel_info.zero).reg_info_1 = w1 ∧
          (r.channel_info.getD i svc_channel_info.zero).reg_info_2 = w2 ∧
          (r.channel_info.getD i svc_channel_info.zero).mhz =
            env.cds_chan_to_freq (r.channel_list.getD i 0)) := by
  obtain ⟨r, hr, -, -, -, -, hlist, hnum, hinfo, -, -⟩ :=
    gen_status_valid env (wlan_status_data.zero env) a sta is_on is_connected hv
  have hzl : (wlan_status_data.zero env).channel_list =
      List.replicate env.WLAN_SVC_MAX_NUM_CHAN 0 := rfl
  have hzlen : (wlan_status_data.zero env).channel_info.length = env.WLAN_SVC_MAX_NUM_CHAN := by
    simp [wlan_status_data.zero]
  rw [hzl] at hlist hnum hinfo
  rw [hzlen] at hinfo
  refine ⟨r, hr, hnum, hlist, ?_⟩
  intro i hi
  rw [hnum] at hi
  have he := hinfo hn i hi
  rw [zero_channel_info_getD, ← hlist] at he
  refine ⟨he, ?_, ?_, ?_⟩
  · rw [he, get_channel_info_chan_id]
  · intro hfail
    rw [he, get_channel_info_fail env _ _ _ hfail]
  · intro w1 w2 hok
    rw [he]
    unfold wlan_hdd_get_channel_info
    rw [hok]
    simp only []
    split_ifs <;> simp [hdd_update_channel_bw_info, WMI_SET_CHANNEL_FLAG]

/-- C9, on the sample platform: channels 1, 13 and 52, of which channel 13
has no regulatory information. -/
theorem C9_channel_entries_witness :
    ∃ r, wlan_hdd_gen_wlan_status_pack sample_env (some (wlan_status_data.zero sample_env))
        (some (sample_adapter 0 0)) none 1 0 = (0, some r) ∧
      r.numChannels = 3 ∧ r.channel_list.take 3 = [1, 13, 52] ∧
      r.channel_info.take 3 =
        [{ chan_id := 1, mhz := 2412, band_center_freq1 := 2412, band_center_freq2 := 0,
           info := 1, reg_info_1 := 101, reg_info_2 := 201 },
         { chan_id := 13, mhz := 0, band_center_freq1 := 0, band_center_freq2 := 0,
           info := 0, reg_info_1 := 0, reg_info_2 := 0 },
         { chan_id := 52, mhz := 2667, band_center_freq1 := 2667, band_center_freq2 := 0,
           info := 1025, reg_info_1 := 152, reg_info_2 := 252 }] := by
  obtain ⟨r, hr, -⟩ := C9_channel_entries sample_env (sample_adapter 0 0) none 1 0
    (by decide) (by decide)
  refine ⟨r, hr, ?_⟩
  have h2 := congrArg Prod.snd hr
  simp only at h2
  have h3 : r = (wlan_hdd_gen_wlan_status_pack sample_env
      (some (wlan_status_data.zero sample_env)) (some (sample_adapter 0 0)) none 1 0).2.getD
        (wlan_status_data.zero sample_env) := by
    rw [h2]
    rfl
  rw [h3]
  decide

/-- C10, as stated, fails: with factory/test mode inactive
`hdd_lpass_notify_stop` hands nothing to the transport when the HDD context
is not registered with CDS, and when the record allocation fails. -/
theorem C10_stop_counterexample :
    sample_env.QDF_GLOBAL_FTM_MODE ≠ sample_world.conparam ∧
    (hdd_lpass_notify_stop sample_env { sample_world with hdd_ctx := none } sample_ctx).nlink
      = [] ∧
    (hdd_lpass_notify_stop sample_env_nomem sample_world sample_ctx).nlink = [] := by
  decide

/-- C10, amended: with factory/test mode inactive, the HDD context registered
and the record allocation succeeding, `hdd_lpass_notify_stop` appends exactly
one Status record to the transport: the all-zero record (`is_on = 0`,
`is_connected = 0`, no adapter data), sent without calling the builder, which
for no adapter and `is_on = 0` returns `-EINVAL`. -/
theorem C10_stop (env : Env) (w : World) (ctx hdd_ctx : hdd_context)
    (hctx : w.hdd_ctx = some ctx) (hk : env.kzalloc_ok w.allocs = true)
    (hf : env.QDF_GLOBAL_FTM_MODE ≠ w.conparam) :
    (hdd_lpass_notify_stop env w hdd_ctx).nlink =
      w.nlink ++ [svc_nlink_msg.WLAN_SVC_WLAN_STATUS_IND ctx.radio_index
        (wlan_status_data.zero env)] ∧
    (wlan_status_data.zero env).is_on = 0 ∧ (wlan_status_data.zero env).is_connected = 0 ∧
    (wlan_hdd_gen_wlan_status_pack env (some (wlan_status_data.zero env)) none none 0 0).1 =
      -EINVAL := by
  refine ⟨?_, rfl, rfl, ?_⟩
  · unfold hdd_lpass_notify_stop
    rw [send_status_ok env w ctx none none 0 0 (wlan_status_data.zero env) hctx hf hk
      (by simp)]
  · simp [wlan_hdd_gen_wlan_status_pack]

/-- C10, amended, on the sample world. -/
theorem C10_stop_witness :
    (hdd_lpass_notify_stop sample_env sample_world sample_ctx).nlink =
      sample_world.nlink ++ [svc_nlink_msg.WLAN_SVC_WLAN_STATUS_IND sample_ctx.radio_index
        (wlan_status_data.zero sample_env)] ∧
    (wlan_status_data.zero sample_env).is_on = 0 ∧
    (wlan_status_data.zero sample_env).is_connected = 0 ∧
    (wlan_hdd_gen_wlan_status_pack sample_env (some (wlan_status_data.zero sample_env))
      none none 0 0).1 = -EINVAL :=
  C10_stop sample_env sample_world sample_ctx sample_ctx rfl rfl (by decide)

/-- C11: `hdd_lpass_notify_connect` is a no-op whenever the adapter's flag is
already Sent or the driver is unloading: the world is returned as it was, so
nothing is handed to the transport and the flag of the adapter is unchanged
(an Idle adapter stays Idle while the driver is unloading). -/
theorem C11_connect_noop (env : Env) (w : World) (adapter : Nat)
    (h : (w.adapters adapter).rssi_send = true ∨ w.driver_unloading = true) :
    hdd_lpass_notify_connect env w adapter = w ∧
    (hdd_lpass_notify_connect env w adapter).nlink = w.nlink ∧
    ((hdd_lpass_notify_connect env w adapter).adapters adapter).rssi_send =
      (w.adapters adapter).rssi_send := by
  have hn := notify_connect_noop env w adapter h
  exact ⟨hn, by rw [hn], by rw [hn]⟩

/-- C11, on the sample world while the driver is unloading: the Idle station
adapter 0 stays Idle and nothing is sent. -/
theorem C11_connect_noop_witness :
    (sample_world_unloading.adapters 0).rssi_send = false ∧
    hdd_lpass_notify_connect sample_env sample_world_unloading 0 = sample_world_unloading ∧
    (hdd_lpass_notify_connect sample_env sample_world_unloading 0).nlink =
      sample_world_unloading.nlink ∧
    ((hdd_lpass_notify_connect sample_env sample_world_unloading 0).adapters 0).rssi_send =
      (sample_world_unloading.adapters 0).rssi_send :=
  ⟨rfl, C11_connect_noop sample_env sample_world_unloading 0 (Or.inr rfl)⟩

/-- C12, as stated, fails: with factory/test mode inactive but the HDD context
not registered with CDS, `hdd_lpass_notify_start` hands nothing to the
transport, so no Version record follows the (empty) broadcast. -/
theorem C12_start_counterexample :
    sample_env.QDF_GLOBAL_FTM_MODE ≠ sample_world_noctx.conparam ∧
    (hdd_lpass_notify_mode_change sample_env sample_world_noctx 0).nlink = [] ∧
    (hdd_lpass_notify_start sample_env sample_world_noctx sample_ctx).nlink = [] := by
  decide

/-- C12, amended: with factory/test mode inactive and the HDD context
registered with CDS, the messages `hdd_lpass_notify_start` hands to the
transport are exactly those `hdd_lpass_notify_mode_change` hands over for the
same adapter list, followed by exactly one `WLAN_SVC_WLAN_VERSION_IND` record,
the one `wlan_hdd_gen_wlan_version_pack` builds on a zeroed record from the
context's `target_fw_version`, `target_hw_version` (as chip id) and
`target_hw_name`; the Version record is last. -/
theorem C12_start (env : Env) (w : World) (ctx hdd_ctx : hdd_context) (adapter : Nat)
    (hctx : w.hdd_ctx = some ctx) (hf : env.QDF_GLOBAL_FTM_MODE ≠ w.conparam)
    (hsame : (w.adapters adapter).hdd_ctx = hdd_ctx) :
    ∃ d, wlan_hdd_gen_wlan_version_pack env (some (wlan_version_data.zero env))
        hdd_ctx.target_fw_version hdd_ctx.target_hw_version hdd_ctx.target_hw_name =
        (0, some d) ∧
      d.chip_id = hdd_ctx.target_hw_version ∧
      (hdd_lpass_notify_start env w hdd_ctx).nlink =
        (hdd_lpass_notify_mode_change env w adapter).nlink ++
          [svc_nlink_msg.WLAN_SVC_WLAN_VERSION_IND ctx.radio_index d] ∧
      (hdd_lpass_notify_start env w hdd_ctx).nlink.getLast? =
        some (svc_nlink_msg.WLAN_SVC_WLAN_VERSION_IND ctx.radio_index d) := by
  obtain ⟨-, g2, g3, -, -, -⟩ := send_all_frame env w (some hdd_ctx)
  obtain ⟨-, -, -, -, -, -, vsome⟩ := send_version_cases env
    (wlan_hdd_send_all_scan_intf_info env w (some hdd_ctx)) hdd_ctx.target_fw_version
    hdd_ctx.target_hw_version hdd_ctx.target_hw_name
  obtain ⟨d, hd, hv⟩ := vsome ctx (g2.trans hctx) (by rw [g3]; exact hf)
  have hmode : hdd_lpass_notify_mode_change env w adapter =
      wlan_hdd_send_all_scan_intf_info env w (some hdd_ctx) := by
    unfold hdd_lpass_notify_mode_change
    simp only [WLAN_HDD_GET_CTX, hsame]
  have hstart : (hdd_lpass_notify_start env w hdd_ctx).nlink =
      (hdd_lpass_notify_mode_change env w adapter).nlink ++
        [svc_nlink_msg.WLAN_SVC_WLAN_VERSION_IND ctx.radio_index d] := by
    rw [hmode, ← hv]
    rfl
  refine ⟨d, hd, ?_, hstart, ?_⟩
  · rw [gen_version_eq] at hd
    have := congrArg Prod.snd hd
    simp only [Option.some.injEq] at this
    rw [← this]
  · rw [hstart]
    simp

/-- C12, amended, on the sample world. -/
theorem C12_start_witness :
    ∃ d, wlan_hdd_gen_wlan_version_pack sample_env (some (wlan_version_data.zero sample_env))
        sample_ctx.target_fw_version sample_ctx.target_hw_version sample_ctx.target_hw_name =
        (0, some d) ∧
      d.chip_id = sample_ctx.target_hw_version ∧
      (hdd_lpass_notify_start sample_env sample_world sample_ctx).nlink =
        (hdd_lpass_notify_mode_change sample_env sample_world 0).nlink ++
          [svc_nlink_msg.WLAN_SVC_WLAN_VERSION_IND sample_ctx.radio_index d] ∧
      (hdd_lpass_notify_start sample_env sample_world sample_ctx).nlink.getLast? =
        some (svc_nlink_msg.WLAN_SVC_WLAN_VERSION_IND sample_ctx.radio_index d) :=
  C12_start sample_env sample_world sample_ctx sample_ctx 0 rfl (by decide) rfl

/-- C13, as stated, fails in its second half: on the sample world (driver not
unloading, factory/test mode inactive) a `hdd_lpass_notify_disconnect` on
adapter 9 followed by a `hdd_lpass_notify_connect` on it sends no connected
record, because the session id of the adapter is invalid; nor does the valid
adapter 0 get one when the HDD context is not registered with CDS or the
allocation fails. -/
theorem C13_rearm_counterexample :
    sample_world.driver_unloading = false ∧
    sample_env.QDF_GLOBAL_FTM_MODE ≠ sample_world.conparam ∧
    (lifecycle_run sample_env sample_world
      [lifecycle_event.disconnect 9, lifecycle_event.connect 9]).nlink = [] ∧
    (lifecycle_run sample_env sample_world_noctx
      [lifecycle_event.disconnect 0, lifecycle_event.connect 0]).nlink = [] ∧
    (lifecycle_run sample_env_nomem sample_world
      [lifecycle_event.disconnect 0, lifecycle_event.connect 0]).nlink = [] := by
  decide

/-- C13, amended: from every world (every flag assignment, reached by any
sequence of events) and for every adapter a:
(1) an event other than a disconnect on a leaves a Sent flag of a Sent, so
only `hdd_lpass_notify_disconnect` resets the flag to Idle;
(2) every event only appends to the transport, and a Status record with
`is_connected` non-zero is appended only by a connect event, for the adapter
of that event, whose flag was Idle and is Sent afterwards;
(3) if a connect on a appended a message, then after any events with no
disconnect on a among them a further connect on a appends nothing, so between
two connected records of one adapter there is a disconnect on it;
(4) after a disconnect on a and any events with no connect on a among them, a
connect on a appends exactly one record with `is_connected = 1` again,
provided the driver is not unloading, factory/test mode is inactive, the HDD
context is registered, the allocations succeed and the session id of a is
valid. -/
theorem C13_rearm_on_disconnect (env : Env) (w : World) (a : Nat)
    (mid : List lifecycle_event) :
    (∀ e, e ≠ lifecycle_event.disconnect a → (w.adapters a).rssi_send = true →
      ((lifecycle_step env w e).adapters a).rssi_send = true) ∧
    (∀ e, ∃ msgs, (lifecycle_step env w e).nlink = w.nlink ++ msgs ∧
      ∀ idx r, svc_nlink_msg.WLAN_SVC_WLAN_STATUS_IND idx r ∈ msgs → r.is_connected ≠ 0 →
        ∃ b, e = lifecycle_event.connect b ∧ (w.adapters b).rssi_send = false ∧
          ((lifecycle_step env w e).adapters b).rssi_send = true ∧
          r.is_connected = 1 ∧ r.vdev_id = (w.adapters b).session_id) ∧
    ((∀ e ∈ mid, e ≠ lifecycle_event.disconnect a) →
      (lifecycle_step env w (lifecycle_event.connect a)).nlink ≠ w.nlink →
      (lifecycle_step env
          (lifecycle_run env (lifecycle_step env w (lifecycle_event.connect a)) mid)
          (lifecycle_event.connect a)).nlink =
        (lifecycle_run env (lifecycle_step env w (lifecycle_event.connect a)) mid).nlink) ∧
    (∀ ctx, w.hdd_ctx = some ctx → env.QDF_GLOBAL_FTM_MODE ≠ w.conparam →
      w.driver_unloading = false → (∀ n, w.allocs ≤ n → env.kzalloc_ok n = true) →
      env.wlan_hdd_validate_session_id (w.adapters a).session_id = 0 →
      (∀ e ∈ mid, e ≠ lifecycle_event.connect a) →
      ∃ r, (lifecycle_step env
            (lifecycle_run env (lifecycle_step env w (lifecycle_event.disconnect a)) mid)
            (lifecycle_event.connect a)).nlink =
          (lifecycle_run env (lifecycle_step env w (lifecycle_event.disconnect a)) mid).nlink ++
            [svc_nlink_msg.WLAN_SVC_WLAN_STATUS_IND ctx.radio_index r] ∧
        r.is_on = 1 ∧ r.is_connected = 1 ∧ r.vdev_id = (w.adapters a).session_id) := by
  refine ⟨?_, ?_, ?_, ?_⟩
  · intro e he h
    exact lifecycle_step_flag_sent env w e a he h
  · intro e
    exact lifecycle_step_msgs env w e
  · intro hmid hsent
    have hflag : ((lifecycle_step env w (lifecycle_event.connect a)).adapters a).rssi_send =
        true := by
      by_cases h : (w.adapters a).rssi_send = false ∧ w.driver_unloading = false
      · rw [lifecycle_step_adapters]
        simp [h]
      · exfalso
        apply hsent
        show (hdd_lpass_notify_connect env w a).nlink = w.nlink
        rw [notify_connect_noop env w a]
        by_cases hs : (w.adapters a).rssi_send = true
        · exact Or.inl hs
        · right
          have hs2 : (w.adapters a).rssi_send = false := by simpa using hs
          by_contra hu
          exact h ⟨hs2, by simpa using hu⟩
    have hend := lifecycle_run_flag_sent env a mid _ hmid hflag
    show (hdd_lpass_notify_connect env _ a).nlink = _
    rw [notify_connect_sent env _ a hend]
  · intro ctx hctx hf hunl hk hv hmid
    have hflag1 : ((lifecycle_step env w (lifecycle_event.disconnect a)).adapters a).rssi_send =
        false := by
      rw [lifecycle_step_adapters]
      simp
    obtain ⟨s1, s2, s3, s4⟩ := lifecycle_step_frame env w (lifecycle_event.disconnect a)
    obtain ⟨f1, f2⟩ := lifecycle_step_record env w (lifecycle_event.disconnect a) a
    obtain ⟨r1, r2, r3, r4, r5⟩ := lifecycle_run_frame env mid
      (lifecycle_step env w (lifecycle_event.disconnect a))
    obtain ⟨g1, g2⟩ := r5 a
    have hend := lifecycle_run_flag_idle env a mid _ hmid hflag1
    have hsess : ((lifecycle_run env (lifecycle_step env w (lifecycle_event.disconnect a))
        mid).adapters a).session_id = (w.adapters a).session_id := by
      rw [g2, f2]
    obtain ⟨r, h1, h2, h3, h4⟩ := notify_connect_ok env
      (lifecycle_run env (lifecycle_step env w (lifecycle_event.disconnect a)) mid) ctx a
      (r1.trans (s1.trans hctx)) (hk _ (le_trans s4 r4)) (by rw [hsess]; exact hv) hend
      (r3.trans (s3.trans hunl)) (by rw [r2, s2]; exact hf)
    exact ⟨r, h1, h2, h3, h4.trans hsess⟩

/-- C13, amended, on the sample world for the station adapter 0: after a
connect that sent a record, a mode change and a start, a second connect sends
nothing; after a disconnect and the same events, a connect sends a connected
record again. -/
theorem C13_rearm_on_disconnect_witness :
    (lifecycle_step sample_env
        (lifecycle_run sample_env
          (lifecycle_step sample_env sample_world (lifecycle_event.connect 0))
          [lifecycle_event.mode_change 1, lifecycle_event.start sample_ctx])
        (lifecycle_event.connect 0)).nlink =
      (lifecycle_run sample_env
        (lifecycle_step sample_env sample_world (lifecycle_event.connect 0))
        [lifecycle_event.mode_change 1, lifecycle_event.start sample_ctx]).nlink ∧
    ∃ r, (lifecycle_step sample_env
          (lifecycle_run sample_env
            (lifecycle_step sample_env sample_world (lifecycle_event.disconnect 0))
            [lifecycle_event.mode_change 1, lifecycle_event.start sample_ctx])
          (lifecycle_event.connect 0)).nlink =
        (lifecycle_run sample_env
          (lifecycle_step sample_env sample_world (lifecycle_event.disconnect 0))
          [lifecycle_event.mode_change 1, lifecycle_event.start sample_ctx]).nlink ++
          [svc_nlink_msg.WLAN_SVC_WLAN_STATUS_IND sample_ctx.radio_index r] ∧
      r.is_on = 1 ∧ r.is_connected = 1 ∧ r.vdev_id = (sample_world.adapters 0).session_id :=
  ⟨(C13_rearm_on_disconnect sample_env sample_world 0
      [lifecycle_event.mode_change 1, lifecycle_event.start sample_ctx]).2.2.1
      (by decide) (by decide),
   (C13_rearm_on_disconnect sample_env sample_world 0
      [lifecycle_event.mode_change 1, lifecycle_event.start sample_ctx]).2.2.2
      sample_ctx rfl (by decide) rfl (fun _ _ => rfl) (by decide) (by decide)⟩

/-- C14: for an adapter with a valid session id the build succeeds and
`lpss_support` of the record is 1 exactly when `hdd_ctx->lpss_support` and
`hdd_ctx->config->enable_lpass_support` are both set, and 0 otherwise. -/
theorem C14_lpss_support (env : Env) (data : wlan_status_data) (a : hdd_adapter)
    (sta : Option hdd_station_ctx) (is_on is_connected : Nat)
    (hv : env.wlan_hdd_validate_session_id a.session_id = 0) :
    ∃ r, wlan_hdd_gen_wlan_status_pack env (some data) (some a) sta is_on is_connected =
        (0, some r) ∧
      (r.lpss_support = 1 ↔
        (a.hdd_ctx.lpss_support = true ∧ a.hdd_ctx.config.enable_lpass_support = true)) ∧
      (r.lpss_support = 0 ↔
        ¬ (a.hdd_ctx.lpss_support = true ∧ a.hdd_ctx.config.enable_lpass_support = true)) := by
  obtain ⟨r, hr, -, -, -, hl, -⟩ := gen_status_valid env data a sta is_on is_connected hv
  refine ⟨r, hr, ?_, ?_⟩
  · rw [hl]
    by_cases h1 : a.hdd_ctx.lpss_support = true <;>
      by_cases h2 : a.hdd_ctx.config.enable_lpass_support = true <;> simp [h1, h2]
  · rw [hl]
    by_cases h1 : a.hdd_ctx.lpss_support = true <;>
      by_cases h2 : a.hdd_ctx.config.enable_lpass_support = true <;> simp [h1, h2]

/-- C14, on the sample platform: with the feature enabled and the capability
not advertised the record is built with `lpss_support = 0`; with both set it
is built with `lpss_support = 1`. -/
theorem C14_lpss_support_witness :
    (∃ r, wlan_hdd_gen_wlan_status_pack sample_env (some (wlan_status_data.zero sample_env))
        (some sample_adapter_nolpss) none 1 0 = (0, some r) ∧ r.lpss_support = 0) ∧
    (∃ r, wlan_hdd_gen_wlan_status_pack sample_env (some (wlan_status_data.zero sample_env))
        (some (sample_adapter 0 0)) none 1 0 = (0, some r) ∧ r.lpss_support = 1) := by
  constructor
  · obtain ⟨r, hr, -, h0⟩ := C14_lpss_support sample_env (wlan_status_data.zero sample_env)
      sample_adapter_nolpss none 1 0 (by decide)
    exact ⟨r, hr, h0.mpr (by decide)⟩
  · obtain ⟨r, hr, h1, -⟩ := C14_lpss_support sample_env (wlan_status_data.zero sample_env)
      (sample_adapter 0 0) none 1 0 (by decide)
    exact ⟨r, hr, h1.mpr (by decide)⟩

/-- C15: a failing `wlan_hdd_gen_wlan_status_pack` leaves the record as it
was (a missing record stays missing and gives `-EINVAL`); when the build of an
`is_on` non-zero send fails, `wlan_hdd_send_status_pkg` hands nothing to the
transport; and whenever it does hand something over, it is exactly one Status
record: the zeroed record for `is_on = 0` (no build), and otherwise the record
of a build that returned 0. -/
theorem C15_no_partial_delivery (env : Env) (w : World) (adapter : Option Nat)
    (sta : Option hdd_station_ctx) (is_on is_connected : Nat) :
    (∀ (data : Option wlan_status_data) (a : Option hdd_adapter),
      (wlan_hdd_gen_wlan_status_pack env data a sta is_on is_connected).1 ≠ 0 →
      (wlan_hdd_gen_wlan_status_pack env data a sta is_on is_connected).2 = data) ∧
    (∀ a : Option hdd_adapter,
      wlan_hdd_gen_wlan_status_pack env none a sta is_on is_connected = (-EINVAL, none)) ∧
    (is_on ≠ 0 →
      (wlan_hdd_gen_wlan_status_pack env (some (wlan_status_data.zero env))
        (adapter.map w.adapters) sta is_on is_connected).1 ≠ 0 →
      (wlan_hdd_send_status_pkg env w adapter sta is_on is_connected).nlink = w.nlink) ∧
    ((wlan_hdd_send_status_pkg env w adapter sta is_on is_connected).nlink = w.nlink ∨
      ∃ ctx r, w.hdd_ctx = some ctx ∧
        (wlan_hdd_send_status_pkg env w adapter sta is_on is_connected).nlink =
          w.nlink ++ [svc_nlink_msg.WLAN_SVC_WLAN_STATUS_IND ctx.radio_index r] ∧
        ((is_on = 0 ∧ r = wlan_status_data.zero env) ∨
         (is_on ≠ 0 ∧
          wlan_hdd_gen_wlan_status_pack env (some (wlan_status_data.zero env))
            (adapter.map w.adapters) sta is_on is_connected = (0, some r)))) := by
  refine ⟨?_, ?_, ?_, ?_⟩
  · intro data a h
    exact gen_status_fail_unchanged env data a sta is_on is_connected h
  · intro a
    rfl
  · intro hon hfail
    rcases send_status_cases env w adapter sta is_on is_connected with hs | ⟨ctx, r, -, -, -, -, hr⟩
    · exact hs
    · exfalso
      rw [if_pos hon] at hr
      rw [hr] at hfail
      exact hfail rfl
  · rcases send_status_cases env w adapter sta is_on is_connected with hs | ⟨ctx, r, hc, -, -, hs, hr⟩
    · exact Or.inl hs
    · right
      refine ⟨ctx, r, hc, hs, ?_⟩
      by_cases hon : is_on = 0
      · left
        rw [if_neg (by simpa using hon)] at hr
        refine ⟨hon, ?_⟩
        have := congrArg Prod.snd hr
        simpa using this.symm
      · right
        rw [if_pos hon] at hr
        exact ⟨hon, hr⟩

/-- C15, on the sample world: the build for adapter 9 (invalid session id)
fails and the connect-style send hands nothing to the transport. -/
theorem C15_no_partial_delivery_witness :
    (1 : Nat) ≠ 0 ∧
    (wlan_hdd_gen_wlan_status_pack sample_env (some (wlan_status_data.zero sample_env))
      ((some 9).map sample_world.adapters) (some sample_station) 1 1).1 ≠ 0 ∧
    (wlan_hdd_send_status_pkg sample_env sample_world (some 9) (some sample_station) 1 1).nlink =
      sample_world.nlink :=
  ⟨by decide, by decide,
   (C15_no_partial_delivery sample_env sample_world (some 9) (some sample_station) 1 1).2.2.1
     (by decide) (by decide)⟩

/-- C16: for an adapter with a valid session id and a connection context, on
a zeroed record the build returns 0; when the SSID length of the connection
is at most `WLAN_SVC_MAX_SSID_LEN`, `ssid_len` is that length and each of the
first `ssid_len` bytes of `ssid` is the corresponding byte of the connection's
SSID; when the length exceeds the maximum, `ssid_len` and every byte of `ssid`
stay zero (nothing is copied, nothing is truncated). -/
theorem C16_ssid (env : Env) (a : hdd_adapter) (s : hdd_station_ctx)
    (is_on is_connected : Nat)
    (hv : env.wlan_hdd_validate_session_id a.session_id = 0) :
    ∃ r, wlan_hdd_gen_wlan_status_pack env (some (wlan_status_data.zero env)) (some a)
        (some s) is_on is_connected = (0, some r) ∧
      (s.ssid_length ≤ env.WLAN_SVC_MAX_SSID_LEN →
        r.ssid_len = s.ssid_length ∧
        (∀ i, i < r.ssid_len → r.ssid.getD i 0 = s.ssId.getD i 0) ∧
        (s.ssid_length ≤ s.ssId.length →
          r.ssid.take r.ssid_len = s.ssId.take s.ssid_length)) ∧
      (env.WLAN_SVC_MAX_SSID_LEN < s.ssid_length →
        r.ssid_len = 0 ∧ r.ssid = List.replicate env.WLAN_SVC_MAX_SSID_LEN 0) := by
  obtain ⟨r, hr, hlen, hssid, -⟩ :=
    gen_status_ssid env (wlan_status_data.zero env) a s is_on is_connected hv
  refine ⟨r, hr, ?_, ?_⟩
  · intro hle
    rw [if_pos hle] at hlen hssid
    refine ⟨hlen, ?_, ?_⟩
    · intro i hi
      rw [hlen] at hi
      rw [hssid]
      exact memcpy_getD_zero _ _ i s.ssId hi
    · intro hsrc
      rw [hlen, hssid]
      unfold memcpy
      rw [List.take_append_of_le_length (by rw [List.length_take]; omega)]
      rw [List.take_take, Nat.min_self]
  · intro hgt
    rw [if_neg (by omega)] at hlen hssid
    exact ⟨hlen, hssid⟩

/-- C16, on the sample platform: the 4-byte SSID "home" is copied, a
connection announcing 33 bytes leaves `ssid_len` and `ssid` zero. -/
theorem C16_ssid_witness :
    (∃ r, wlan_hdd_gen_wlan_status_pack sample_env (some (wlan_status_data.zero sample_env))
        (some (sample_adapter 0 0)) (some sample_station) 1 1 = (0, some r) ∧
      r.ssid_len = 4 ∧ r.ssid.take r.ssid_len = [104, 111, 109, 101]) ∧
    (∃ r, wlan_hdd_gen_wlan_status_pack sample_env (some (wlan_status_data.zero sample_env))
        (some (sample_adapter 0 0)) (some { sample_station with ssid_length := 33 }) 1 1 =
          (0, some r) ∧
      r.ssid_len = 0 ∧ r.ssid = List.replicate 32 0) := by
  constructor
  · obtain ⟨r, hr, h1, -⟩ := C16_ssid sample_env (sample_adapter 0 0) sample_station 1 1
      (by decide)
    obtain ⟨h2, -, h3⟩ := h1 (by decide)
    exact ⟨r, hr, h2, (h3 (by decide)).trans (by decide)⟩
  · obtain ⟨r, hr, -, h1⟩ := C16_ssid sample_env (sample_adapter 0 0)
      { sample_station with ssid_length := 33 } 1 1 (by decide)
    obtain ⟨h2, h3⟩ := h1 (by decide)
    exact ⟨r, hr, h2, h3⟩

/-- C17: when `sme_get_reg_info` succeeds for a channel id with the words
(w1, w2), the entry `wlan_hdd_get_channel_info` produces has `mhz` equal to
`cds_chan_to_freq` of the channel id, `band_center_freq1` equal to `mhz`,
`band_center_freq2` equal to 0, `reg_info_1 = w1`, `reg_info_2 = w2` and its
`chan_id` untouched; its flags word is the result of the bandwidth step
applied to a word that was reset to 0 and has the DFS bit, and only that bit,
set exactly when the state of the channel is `CHANNEL_STATE_DFS`. -/
theorem C17_channel_info (env : Env) (hdd_ctx : hdd_context) (chan_info : svc_channel_info)
    (chan_id w1 w2 : Nat) (hok : env.sme_get_reg_info hdd_ctx.hHal chan_id = some (w1, w2)) :
    (wlan_hdd_get_channel_info env hdd_ctx chan_info chan_id).mhz =
      env.cds_chan_to_freq chan_id ∧
    (wlan_hdd_get_channel_info env hdd_ctx chan_info chan_id).band_center_freq1 =
      (wlan_hdd_get_channel_info env hdd_ctx chan_info chan_id).mhz ∧
    (wlan_hdd_get_channel_info env hdd_ctx chan_info chan_id).band_center_freq2 = 0 ∧
    (wlan_hdd_get_channel_info env hdd_ctx chan_info chan_id).reg_info_1 = w1 ∧
    (wlan_hdd_get_channel_info env hdd_ctx chan_info chan_id).reg_info_2 = w2 ∧
    (wlan_hdd_get_channel_info env hdd_ctx chan_info chan_id).chan_id = chan_info.chan_id ∧
    ∃ pre, (wlan_hdd_get_channel_info env hdd_ctx chan_info chan_id).info =
        env.channel_bw_flags hdd_ctx chan_id pre ∧
      pre = (if env.CHANNEL_STATE_DFS =
          env.wlan_reg_get_channel_state hdd_ctx.hdd_pdev chan_id then
        1 <<< env.WMI_CHAN_FLAG_DFS else 0) ∧
      (pre.testBit env.WMI_CHAN_FLAG_DFS = true ↔
        env.CHANNEL_STATE_DFS = env.wlan_reg_get_channel_state hdd_ctx.hdd_pdev chan_id) := by
  by_cases hdfs : env.CHANNEL_STATE_DFS =
      env.wlan_reg_get_channel_state hdd_ctx.hdd_pdev chan_id
  · have heq : wlan_hdd_get_channel_info env hdd_ctx chan_info chan_id =
        { chan_id := chan_info.chan_id, mhz := env.cds_chan_to_freq chan_id,
          band_center_freq1 := env.cds_chan_to_freq chan_id, band_center_freq2 := 0,
          info := env.channel_bw_flags hdd_ctx chan_id (1 <<< env.WMI_CHAN_FLAG_DFS),
          reg_info_1 := w1, reg_info_2 := w2 } := by
      unfold wlan_hdd_get_channel_info
      rw [hok]
      simp only [if_pos hdfs, hdd_update_channel_bw_info, WMI_SET_CHANNEL_FLAG, Nat.zero_or]
    rw [heq]
    refine ⟨rfl, rfl, rfl, rfl, rfl, rfl, 1 <<< env.WMI_CHAN_FLAG_DFS, rfl, by rw [if_pos hdfs], ?_⟩
    constructor
    · intro _
      exact hdfs
    · intro _
      rw [Nat.testBit_shiftLeft]
      simp
  · have heq : wlan_hdd_get_channel_info env hdd_ctx chan_info chan_id =
        { chan_id := chan_info.chan_id, mhz := env.cds_chan_to_freq chan_id,
          band_center_freq1 := env.cds_chan_to_freq chan_id, band_center_freq2 := 0,
          info := env.channel_bw_flags hdd_ctx chan_id 0,
          reg_info_1 := w1, reg_info_2 := w2 } := by
      unfold wlan_hdd_get_channel_info
      rw [hok]
      simp only [if_neg hdfs, hdd_update_channel_bw_info]
    rw [heq]
    refine ⟨rfl, rfl, rfl, rfl, rfl, rfl, 0, rfl, by rw [if_neg hdfs], ?_⟩
    constructor
    · intro h
      simp at h
    · intro h
      exact absurd h hdfs

/-- C17, on the sample platform: the DFS channel 52 and the non-DFS channel
1, resolved into a zero entry. -/
theorem C17_channel_info_witness :
    wlan_hdd_get_channel_info sample_env sample_ctx svc_channel_info.zero 52 =
      { chan_id := 0, mhz := 2667, band_center_freq1 := 2667, band_center_freq2 := 0,
        info := 1025, reg_info_1 := 152, reg_info_2 := 252 } ∧
    (wlan_hdd_get_channel_info sample_env sample_ctx svc_channel_info.zero 1).mhz =
      sample_env.cds_chan_to_freq 1 ∧
    (wlan_hdd_get_channel_info sample_env sample_ctx svc_channel_info.zero 1).reg_info_1 =
      101 ∧
    (wlan_hdd_get_channel_info sample_env sample_ctx svc_channel_info.zero 1).reg_info_2 =
      201 :=
  ⟨by decide,
   (C17_channel_info sample_env sample_ctx svc_channel_info.zero 1 101 201 (by decide)).1,
   (C17_channel_info sample_env sample_ctx svc_channel_info.zero 1 101 201 (by decide)).2.2.2.1,
   (C17_channel_info sample_env sample_ctx svc_channel_info.zero 1 101 201
     (by decide)).2.2.2.2.1⟩

/-- C18: the flag is per adapter: for distinct adapters a and b,
`hdd_lpass_notify_connect` and `hdd_lpass_notify_disconnect` on a leave the
adapter object b, hence its flag, unchanged; `hdd_lpass_notify_mode_change`,
`hdd_lpass_notify_start` and `hdd_lpass_notify_stop` leave every adapter
object unchanged. -/
theorem C18_flag_per_adapter (env : Env) (w : World) (a b : Nat) (hdd_ctx : hdd_context)
    (hab : a ≠ b) :
    (hdd_lpass_notify_connect env w a).adapters b = w.adapters b ∧
    (hdd_lpass_notify_disconnect env w a).adapters b = w.adapters b ∧
    ((hdd_lpass_notify_connect env w a).adapters b).rssi_send = (w.adapters b).rssi_send ∧
    ((hdd_lpass_notify_disconnect env w a).adapters b).rssi_send = (w.adapters b).rssi_send ∧
    (hdd_lpass_notify_mode_change env w a).adapters = w.adapters ∧
    (hdd_lpass_notify_start env w hdd_ctx).adapters = w.adapters ∧
    (hdd_lpass_notify_stop env w hdd_ctx).adapters = w.adapters := by
  have h1 : (hdd_lpass_notify_connect env w a).adapters b = w.adapters b :=
    lifecycle_step_other env w (lifecycle_event.connect a) b
      (fun h => hab (by injection h)) (fun h => by cases h)
  have h2 : (hdd_lpass_notify_disconnect env w a).adapters b = w.adapters b :=
    lifecycle_step_other env w (lifecycle_event.disconnect a) b
      (fun h => by cases h) (fun h => hab (by injection h))
  exact ⟨h1, h2, by rw [h1], by rw [h2],
    lifecycle_step_adapters env w (lifecycle_event.mode_change a),
    lifecycle_step_adapters env w (lifecycle_event.start hdd_ctx),
    lifecycle_step_adapters env w (lifecycle_event.stop hdd_ctx)⟩

/-- C18, on the sample world: connect and disconnect on adapter 0 leave
adapter 2 as it was. -/
theorem C18_flag_per_adapter_witness :
    (0 : Nat) ≠ 2 ∧
    (hdd_lpass_notify_connect sample_env sample_world 0).adapters 2 = sample_world.adapters 2 ∧
    (hdd_lpass_notify_disconnect sample_env sample_world 0).adapters 2 =
      sample_world.adapters 2 :=
  ⟨by decide,
   (C18_flag_per_adapter sample_env sample_world 0 2 sample_ctx (by decide)).1,
   (C18_flag_per_adapter sample_env sample_world 0 2 sample_ctx (by decide)).2.1⟩

/-- C19: for an Idle adapter with the driver not unloading,
`hdd_lpass_notify_connect` leaves the flag Sent whether or not a record was
handed to the transport. When the send is suppressed or fails (HDD context
not registered, factory/test mode active, allocation failure, or invalid
session id) nothing is sent and the flag is Sent all the same, so a connect
that follows, directly or after any events with no disconnect on the adapter
among them, sends nothing: the connection is not reported. -/
theorem C19_flag_set_without_send (env : Env) (w : World) (a : Nat)
    (mid : List lifecycle_event)
    (hidle : (w.adapters a).rssi_send = false) (hunl : w.driver_unloading = false)
    (hmid : ∀ e ∈ mid, e ≠ lifecycle_event.disconnect a) :
    ((hdd_lpass_notify_connect env w a).adapters a).rssi_send = true ∧
    ((w.hdd_ctx = none ∨ env.QDF_GLOBAL_FTM_MODE = w.conparam ∨
        env.kzalloc_ok w.allocs = false ∨
        env.wlan_hdd_validate_session_id (w.adapters a).session_id ≠ 0) →
      (hdd_lpass_notify_connect env w a).nlink = w.nlink ∧
      (hdd_lpass_notify_connect env (hdd_lpass_notify_connect env w a) a).nlink = w.nlink) ∧
    (hdd_lpass_notify_connect env (hdd_lpass_notify_connect env w a) a).nlink =
      (hdd_lpass_notify_connect env w a).nlink ∧
    (hdd_lpass_notify_connect env
        (lifecycle_run env (hdd_lpass_notify_connect env w a) mid) a).nlink =
      (lifecycle_run env (hdd_lpass_notify_connect env w a) mid).nlink := by
  have hflag : ((hdd_lpass_notify_connect env w a).adapters a).rssi_send = true := by
    rw [notify_connect_adapters, if_pos ⟨hidle, hunl⟩]
    simp
  have hagain : hdd_lpass_notify_connect env (hdd_lpass_notify_connect env w a) a =
      hdd_lpass_notify_connect env w a := notify_connect_sent env _ a hflag
  refine ⟨hflag, ?_, by rw [hagain], ?_⟩
  · intro hfail
    have hfirst : (hdd_lpass_notify_connect env w a).nlink = w.nlink := by
      rw [notify_connect_idle env w a hidle hunl]
      rcases send_status_cases env
        { w with
          adapters := Function.update w.adapters a { (w.adapters a) with rssi_send := true } }
        (some a) (some (w.adapters a).station) 1 1 with hs | ⟨ctx, r, hc, hf, hk, -, hr⟩
      · exact hs
      · exfalso
        rw [if_pos (by decide)] at hr
        have hr2 : wlan_hdd_gen_wlan_status_pack env (some (wlan_status_data.zero env))
            (some { (w.adapters a) with rssi_send := true }) (some (w.adapters a).station) 1 1 =
            (0, some r) := by simpa using hr
        have hv := gen_status_ok_valid env _ _ _ _ _ _ hr2
        rcases hfail with h | h | h | h
        · rw [h] at hc
          cases hc
        · exact hf h
        · rw [h] at hk
          cases hk
        · exact h hv
    exact ⟨hfirst, by rw [hagain, hfirst]⟩
  · rw [notify_connect_sent env _ a (lifecycle_run_flag_sent env a mid _ hmid hflag)]

/-- C19, on the sample world for adapter 9, whose session id is invalid: the
flag becomes Sent, nothing is sent by the first connect nor by a second one
after a mode change. -/
theorem C19_flag_set_without_send_witness :
    (sample_world.adapters 9).rssi_send = false ∧ sample_world.driver_unloading = false ∧
    sample_env.wlan_hdd_validate_session_id (sample_world.adapters 9).session_id ≠ 0 ∧
    ((hdd_lpass_notify_connect sample_env sample_world 9).adapters 9).rssi_send = true ∧
    (hdd_lpass_notify_connect sample_env sample_world 9).nlink = sample_world.nlink ∧
    (hdd_lpass_notify_connect sample_env
        (lifecycle_run sample_env (hdd_lpass_notify_connect sample_env sample_world 9)
          [lifecycle_event.mode_change 0]) 9).nlink =
      (lifecycle_run sample_env (hdd_lpass_notify_connect sample_env sample_world 9)
        [lifecycle_event.mode_change 0]).nlink :=
  ⟨rfl, rfl, by decide,
   (C19_flag_set_without_send sample_env sample_world 9 [lifecycle_event.mode_change 0]
     rfl rfl (by decide)).1,
   ((C19_flag_set_without_send sample_env sample_world 9 [lifecycle_event.mode_change 0]
     rfl rfl (by decide)).2.1 (Or.inr (Or.inr (Or.inr (by decide))))).1,
   (C19_flag_set_without_send sample_env sample_world 9 [lifecycle_event.mode_change 0]
     rfl rfl (by decide)).2.2.2⟩

/-- C20: the `fw_version` string depends only on bits 28-31, 24-27, 20-23 and
0-14 of `fw_version`: two values that agree on bits 0-14 and 20-31 (so differ
at most in bits 15-19) give the same version record; the formatting is
therefore not injective (0 and 0x8000 give the same record); and the string
written into a zeroed record is at most 14 characters long. -/
theorem C20_fw_version_bits (env : Env) (data : wlan_version_data) (v1 v2 chip_id : Nat)
    (chip_name : List Char)
    (h : ∀ i, i < 15 ∨ (20 ≤ i ∧ i < 32) → v1.testBit i = v2.testBit i) :
    wlan_hdd_gen_wlan_version_pack env (some data) v1 chip_id chip_name =
      wlan_hdd_gen_wlan_version_pack env (some data) v2 chip_id chip_name ∧
    ((0 : Nat) ≠ 0x8000 ∧
      wlan_hdd_gen_wlan_version_pack env (some data) 0 chip_id chip_name =
        wlan_hdd_gen_wlan_version_pack env (some data) 0x8000 chip_id chip_name) ∧
    ∃ d, wlan_hdd_gen_wlan_version_pack env (some (wlan_version_data.zero env)) v1 chip_id
        chip_name = (0, some d) ∧
      (c_str d.fw_version).length ≤ 14 := by
  have key : ∀ u1 u2 : Nat,
      (∀ i, i < 15 ∨ (20 ≤ i ∧ i < 32) → u1.testBit i = u2.testBit i) →
      wlan_hdd_gen_wlan_version_pack env (some data) u1 chip_id chip_name =
        wlan_hdd_gen_wlan_version_pack env (some data) u2 chip_id chip_name := by
    intro u1 u2 hu
    rw [gen_version_eq, gen_version_eq, fw_text_eq, fw_text_eq,
      bits_field_eq u1 u2 28 (fun j hj => hu _ (Or.inr ⟨by omega, by omega⟩)),
      bits_field_eq u1 u2 24 (fun j hj => hu _ (Or.inr ⟨by omega, by omega⟩)),
      bits_field_eq u1 u2 20 (fun j hj => hu _ (Or.inr ⟨by omega, by omega⟩)),
      bits_low_eq u1 u2 15 (fun j hj => hu _ (Or.inl hj))]
  refine ⟨key v1 v2 h, ⟨by decide, key 0 0x8000 ?_⟩, ?_⟩
  · intro i hi
    have h15 : (0x8000 : Nat) = 2 ^ 15 := by norm_num
    rw [Nat.zero_testBit, h15, Nat.testBit_two_pow]
    have hne : 15 ≠ i := by omega
    simp [hne]
  · refine ⟨_, gen_version_eq env (wlan_version_data.zero env) v1 chip_id chip_name, ?_⟩
    simp only [wlan_version_data.zero]
    rw [fw_text_eq]
    have h1 := scnprintf_zero_length env.WLAN_SVC_MAX_STR_LEN _
      (fw_text_no_NUL (v1 / 2 ^ 28 % 16) (v1 / 2 ^ 24 % 16) (v1 / 2 ^ 20 % 16) (v1 % 2 ^ 15))
    have h2 := fw_text_length (v1 / 2 ^ 28 % 16) (v1 / 2 ^ 24 % 16) (v1 / 2 ^ 20 % 16)
      (v1 % 2 ^ 15) (Nat.mod_lt _ (by decide)) (Nat.mod_lt _ (by decide))
      (Nat.mod_lt _ (by decide)) (Nat.mod_lt _ (by decide))
    exact le_trans h1 h2

/-- C20, on the sample platform: 0x12345678 and 0x123F5678 differ only in
bits 16-19 and give the same record; the longest string, for 0xFFF07FFF, is
"15.15.15.32767". -/
theorem C20_fw_version_bits_witness :
    wlan_hdd_gen_wlan_version_pack sample_env (some (wlan_version_data.zero sample_env))
        0x12345678 0x400 "QCA6390".toList =
      wlan_hdd_gen_wlan_version_pack sample_env (some (wlan_version_data.zero sample_env))
        0x123F5678 0x400 "QCA6390".toList ∧
    ((wlan_hdd_gen_wlan_version_pack sample_env (some (wlan_version_data.zero sample_env))
        0xFFF07FFF 0x400 "QCA6390".toList).2.map (fun d => c_str d.fw_version)) =
      some "15.15.15.32767".toList := by
  refine ⟨(C20_fw_version_bits sample_env (wlan_version_data.zero sample_env) 0x12345678
    0x123F5678 0x400 "QCA6390".toList ?_).1, by decide⟩
  intro i hi
  have hx : (0x123F5678 : Nat) = 0x12345678 ||| (11 <<< 16) := by decide
  rw [hx, Nat.testBit_or, Nat.testBit_shiftLeft]
  have h11 : ∀ j, 4 ≤ j → Nat.testBit 11 j = false := by
    intro j hj
    apply Nat.testBit_lt_two_pow
    calc 11 < 2 ^ 4 := by norm_num
      _ ≤ 2 ^ j := Nat.pow_le_pow_right (by norm_num) hj
  rcases hi with hi | hi
  · have : ¬ (i ≥ 16) := by omega
    simp [this]
  · rw [h11 (i - 16) (by omega)]
    simp

end Lpass
